import Mathlib

/-!
Shallow embedding of the SCSI Primary Commands (SPC) emulation engine of
drivers/target/target_core_spc.c (Linux 6.12.y), together with theorems
settling the behavioural claims about it.

Modelling conventions:
* Byte buffers are `List Nat`; every store masks with `% 256`, mirroring the
  `unsigned char` arrays of the source.  `getByte` also masks, mirroring a
  `u8` load.  Out-of-range `List.set` is a no-op, which is only ever reached
  where the C code is also guarded by an explicit bound (`min`, buffer size).
* C strings held in fixed `char[]` fields (`t10_wwn.vendor`, `.model`,
  `.revision`, `.unit_serial`, the fabric wwn) are modelled as the list of
  bytes before the NUL terminator, so `strnlen s n = min s.length n` and
  `sprintf "%s"` writes `s` followed by a NUL byte.
* `sense_reason_t` successes become `Except.ok` (the command then completes
  with GOOD status); failures become `Except.error` carrying the TCM_* code.
* Device, LUN and session state consumed through accessors is collected in
  one read-only record `DevState`.
-/

namespace TargetCoreSpc

/-! ## Byte buffer primitives (put_unaligned_be*, memcpy, memset backdrop) -/

/-- Read byte `i` of a buffer (a `u8` load; out of range reads 0). -/
def getByte (b : List Nat) (i : Nat) : Nat := b.getD i 0 % 256

/-- Store byte `i` of a buffer (a `u8` store truncates to 8 bits). -/
def setByte (b : List Nat) (i v : Nat) : List Nat := b.set i (v % 256)

/-- `buf[i] |= v`. -/
def orByte (b : List Nat) (i v : Nat) : List Nat := setByte b i (getByte b i ||| v)

/-- `put_unaligned_be16(v, &buf[i])`. -/
def putBe16 (b : List Nat) (i v : Nat) : List Nat :=
  setByte (setByte b i (v / 256)) (i + 1) v

/-- `put_unaligned_be32(v, &buf[i])`. -/
def putBe32 (b : List Nat) (i v : Nat) : List Nat :=
  setByte (setByte (setByte (setByte b i (v / 16777216)) (i + 1) (v / 65536))
    (i + 2) (v / 256)) (i + 3) v

/-- `put_unaligned_be64(v, &buf[i])`. -/
def putBe64 (b : List Nat) (i v : Nat) : List Nat :=
  putBe32 (putBe32 b i (v / 4294967296)) (i + 4) v

/-- `get_unaligned_be16(&buf[i])`. -/
def readBe16 (b : List Nat) (i : Nat) : Nat := getByte b i * 256 + getByte b (i + 1)

/-- `get_unaligned_be32(&buf[i])`. -/
def readBe32 (b : List Nat) (i : Nat) : Nat :=
  getByte b i * 16777216 + getByte b (i + 1) * 65536 +
    getByte b (i + 2) * 256 + getByte b (i + 3)

/-- `memcpy(&buf[off], src, src.length)`: sequential byte stores. -/
def writeBytes : List Nat → Nat → List Nat → List Nat
  | b, _, [] => b
  | b, off, v :: vs => writeBytes (setByte b off v) (off + 1) vs

/-- The 16-bit big-endian list of a value (used when a freshly zeroed
    allocation is filled left to right, where splicing a list equals the
    source's sequence of byte stores). -/
def be16List (v : Nat) : List Nat := [v / 256 % 256, v % 256]

/-- The 32-bit big-endian list of a value. -/
def be32List (v : Nat) : List Nat :=
  [v / 16777216 % 256, v / 65536 % 256, v / 256 % 256, v % 256]

/-! ## SCSI constants (include/scsi/scsi_proto.h and target headers; these
    headers are not under src/, the values are the kernel's) -/

abbrev TEST_UNIT_READY : Nat := 0x00
abbrev REQUEST_SENSE : Nat := 0x03
abbrev READ_6 : Nat := 0x08
abbrev WRITE_6 : Nat := 0x0a
abbrev INQUIRY : Nat := 0x12
abbrev MODE_SELECT : Nat := 0x15
abbrev RESERVE : Nat := 0x16
abbrev RELEASE : Nat := 0x17
abbrev MODE_SENSE : Nat := 0x1a
abbrev START_STOP : Nat := 0x1b
abbrev RECEIVE_DIAGNOSTIC : Nat := 0x1c
abbrev SEND_DIAGNOSTIC : Nat := 0x1d
abbrev READ_CAPACITY : Nat := 0x25
abbrev READ_10 : Nat := 0x28
abbrev WRITE_10 : Nat := 0x2a
abbrev WRITE_VERIFY : Nat := 0x2e
abbrev VERIFY : Nat := 0x2f
abbrev SYNCHRONIZE_CACHE : Nat := 0x35
abbrev WRITE_BUFFER : Nat := 0x3b
abbrev WRITE_SAME : Nat := 0x41
abbrev UNMAP : Nat := 0x42
abbrev LOG_SELECT : Nat := 0x4c
abbrev LOG_SENSE : Nat := 0x4d
abbrev MODE_SELECT_10 : Nat := 0x55
abbrev RESERVE_10 : Nat := 0x56
abbrev RELEASE_10 : Nat := 0x57
abbrev MODE_SENSE_10 : Nat := 0x5a
abbrev PERSISTENT_RESERVE_IN : Nat := 0x5e
abbrev PERSISTENT_RESERVE_OUT : Nat := 0x5f
abbrev VARIABLE_LENGTH_CMD : Nat := 0x7f
abbrev EXTENDED_COPY : Nat := 0x83
abbrev RECEIVE_COPY_RESULTS : Nat := 0x84
abbrev READ_16 : Nat := 0x88
abbrev COMPARE_AND_WRITE : Nat := 0x89
abbrev WRITE_16 : Nat := 0x8a
abbrev READ_ATTRIBUTE : Nat := 0x8c
abbrev WRITE_ATTRIBUTE : Nat := 0x8d
abbrev WRITE_VERIFY_16 : Nat := 0x8e
abbrev VERIFY_16 : Nat := 0x8f
abbrev SYNCHRONIZE_CACHE_16 : Nat := 0x91
abbrev WRITE_SAME_16 : Nat := 0x93
abbrev SERVICE_ACTION_IN_16 : Nat := 0x9e
abbrev REPORT_LUNS : Nat := 0xa0
abbrev SECURITY_PROTOCOL_IN : Nat := 0xa2
abbrev MAINTENANCE_IN : Nat := 0xa3
abbrev MAINTENANCE_OUT : Nat := 0xa4
abbrev READ_12 : Nat := 0xa8
abbrev WRITE_12 : Nat := 0xaa
abbrev SECURITY_PROTOCOL_OUT : Nat := 0xb5

abbrev WRITE_SAME_32 : Nat := 0x000d
abbrev SAI_READ_CAPACITY_16 : Nat := 0x10
abbrev SAI_REPORT_REFERRALS : Nat := 0x13
abbrev MI_REPORT_TARGET_PGS : Nat := 0x0a
abbrev MI_REPORT_SUPPORTED_OPERATION_CODES : Nat := 0x0c
abbrev MO_SET_TARGET_PGS : Nat := 0x0a
abbrev RCR_SA_OPERATING_PARAMETERS : Nat := 0x03

abbrev PRI_READ_KEYS : Nat := 0x00
abbrev PRI_READ_RESERVATION : Nat := 0x01
abbrev PRI_REPORT_CAPABILITIES : Nat := 0x02
abbrev PRI_READ_FULL_STATUS : Nat := 0x03
abbrev PRO_REGISTER : Nat := 0x00
abbrev PRO_RESERVE : Nat := 0x01
abbrev PRO_RELEASE : Nat := 0x02
abbrev PRO_CLEAR : Nat := 0x03
abbrev PRO_PREEMPT : Nat := 0x04
abbrev PRO_PREEMPT_AND_ABORT : Nat := 0x05
abbrev PRO_REGISTER_AND_IGNORE_EXISTING_KEY : Nat := 0x06
abbrev PRO_REGISTER_AND_MOVE : Nat := 0x07
abbrev PRO_REPLACE_LOST_RESERVATION : Nat := 0x08

abbrev TYPE_DISK : Nat := 0x00
abbrev TYPE_TAPE : Nat := 0x01
abbrev TYPE_ROM : Nat := 0x05

abbrev SCSI_CONTROL_MASK : Nat := 0x04
abbrev SCSI_GROUP_NUMBER_MASK : Nat := 0xf8
abbrev SCSI_SUPPORT_NOT_SUPPORTED : Nat := 1
abbrev SCSI_SUPPORT_FULL : Nat := 3

abbrev TPGS_EXPLICIT_ALUA : Nat := 0x20

abbrev SE_MODE_PAGE_BUF : Nat := 512
abbrev SE_INQUIRY_BUF : Nat := 1024

abbrev INQUIRY_VENDOR_LEN : Nat := 8
abbrev INQUIRY_MODEL_LEN : Nat := 16
abbrev INQUIRY_REVISION_LEN : Nat := 4

/-- TARGET_UA_INTLCK_CTRL_* enum values (target_core_base.h). -/
abbrev TARGET_UA_INTLCK_CTRL_CLEAR : Nat := 0
abbrev TARGET_UA_INTLCK_CTRL_NO_CLEAR : Nat := 1
abbrev TARGET_UA_INTLCK_CTRL_ESTABLISH_UA : Nat := 2

/-! ## Error codes (sense_reason_t) -/

inductive Sense where
  | invalidCdbField
  | unknownModePage
  | parameterListLengthError
  | invalidParameterList
  | unsupportedScsiOpcode
  | communicationFailure
  deriving DecidableEq, Repr

instance {ε α : Type} [DecidableEq ε] [DecidableEq α] : DecidableEq (Except ε α)
  | Except.error e, Except.error f =>
    if h : e = f then Decidable.isTrue (congrArg _ h)
    else Decidable.isFalse (fun c => h (by injection c))
  | Except.error _, Except.ok _ => Decidable.isFalse (fun c => by injection c)
  | Except.ok _, Except.error _ => Decidable.isFalse (fun c => by injection c)
  | Except.ok a, Except.ok b =>
    if h : a = b then Decidable.isTrue (congrArg _ h)
    else Decidable.isFalse (fun c => h (by injection c))

/-! ## Device / LUN / session state snapshot -/

/-- The ALUA target port group reachable from `lun->lun_tg_pt_gp` (under RCU
    in the source); `none` models a NULL pointer. -/
structure TgPtGp where
  id : Nat
  accessType : Nat
  deriving DecidableEq, Repr

/-- Read-only snapshot of every device / LUN / session datum the SPC core
    consumes (dev_attrib fields, t10_wwn strings, transport ops presence,
    ALUA pointers, session protection capabilities). -/
structure DevState where
  deviceType : Nat := TYPE_DISK       -- dev->transport->get_device_type(dev)
  emulate_3pc : Bool := false
  emulate_pr : Bool := false
  emulate_rsoc : Bool := false
  emulate_caw : Bool := false
  emulate_tpu : Bool := false
  emulate_tpws : Bool := false
  emulate_rest_reord : Bool := false  -- compared against 1 in the source
  emulate_tas : Bool := false
  emulate_ua_intlck_ctrl : Nat := 0
  pi_prot_type : Nat := 0
  sess_prot_type : Nat := 0
  -- sess->sup_prot_ops & (TARGET_PROT_DIN_PASS | TARGET_PROT_DOUT_PASS)
  sup_prot_ops_pass : Bool := false
  export_count : Nat := 1
  vendor : List Nat := []             -- dev->t10_wwn.vendor (NUL-free content)
  model : List Nat := []              -- dev->t10_wwn.model
  revision : List Nat := []           -- dev->t10_wwn.revision
  unit_serial : List Nat := []        -- dev->t10_wwn.unit_serial
  hasUnitSerial : Bool := false       -- dev->dev_flags & DF_EMULATED_VPD_UNIT_SERIAL
  company_id : Nat := 0               -- dev->t10_wwn.company_id
  proto_id : Nat := 0                 -- tpg->proto_id
  rtpi : Nat := 0                     -- lun->lun_tpg->tpg_rtpi
  tgPtGp : Option TgPtGp := none      -- rcu_dereference(lun->lun_tg_pt_gp)
  luGpId : Option Nat := none         -- dev_alua_lu_gp_mem -> lu_gp -> lu_gp_id
  fabric_wwn : List Nat := []         -- tpg_get_wwn(tpg)
  tpgt : Nat := 0                     -- tpg_get_tag(tpg), a u16
  lun_access_ro : Bool := false       -- lun_access_ro || target_lun_is_rdonly
  writeCache : Bool := false          -- target_check_wce(dev)
  fua : Bool := false                 -- target_check_fua(dev)
  senseDescFormat : Bool := false     -- target_sense_desc_format(dev)
  blocks : Nat := 0                   -- dev->transport->get_blocks(dev)
  block_size : Nat := 512
  hw_block_size : Nat := 512
  hw_max_sectors : Nat := 0
  optimal_sectors : Nat := 0
  max_unmap_lba_count : Nat := 0
  max_unmap_block_desc_count : Nat := 0
  unmap_granularity : Nat := 0
  unmap_granularity_alignment : Nat := 0
  unmap_zeroes_data : Bool := false
  max_write_same_len : Nat := 0
  is_nonrot : Bool := false
  get_io_min : Option Nat := none     -- none models a NULL op pointer
  get_io_opt : Option Nat := none
  max_data_sg_nents : Nat := 0        -- cmd->se_tfo->max_data_sg_nents
  lbaMapPresent : Bool := false       -- !list_empty(&t10_alua.lba_map_list)
  lba_map_segment_size : Nat := 0
  lba_map_segment_multiplier : Nat := 0
  passthroughPgr : Bool := false      -- transport_flags & TRANSPORT_FLAG_PASSTHROUGH_PGR
  hasExecuteUnmap : Bool := false     -- ops->execute_unmap != NULL
  hasExecuteWriteSame : Bool := false -- ops->execute_write_same != NULL
  deriving Repr

/-! ## Mode page generators (spc_modesense_*)

Each generator writes into a zeroed scratch region and returns its byte
count, so it is modelled as the fully materialised page (unwritten bytes are
the zeroes of the memset backdrop); the returned length is the list length. -/

/-- spc_modesense_rwrecovery: page 0x01, 12 bytes. -/
def spc_modesense_rwrecovery (_s : DevState) (_pc : Nat) : List Nat :=
  [0x01, 0x0a, 0, 0, 0, 0, 0, 0, 0, 0, 0, 0]

/-- spc_modesense_control: page 0x0a, 12 bytes. -/
def spc_modesense_control (s : DevState) (pc : Nat) : List Nat :=
  if pc = 1 then
    [0x0a, 0x0a, 0, 0, 0, 0, 0, 0, 0, 0, 0, 0]
  else
    let b2 := (1 <<< 1) ||| (if s.senseDescFormat then 1 <<< 2 else 0)
    let b3 := if s.emulate_rest_reord then 0x00 else 0x10
    let b4 :=
      if s.emulate_ua_intlck_ctrl = TARGET_UA_INTLCK_CTRL_ESTABLISH_UA then 0x30
      else if s.emulate_ua_intlck_ctrl = TARGET_UA_INTLCK_CTRL_NO_CLEAR then 0x20
      else 0x00
    let b5 := (if s.emulate_tas then 0x40 else 0x00) |||
      (if s.sup_prot_ops_pass ∧ (s.pi_prot_type ≠ 0 ∨ s.sess_prot_type ≠ 0)
       then 0x80 else 0)
    [0x0a, 0x0a, b2, b3, b4, b5, 0, 0, 0xff, 0xff, 0, 30]

/-- spc_modesense_caching: page 0x08, 20 bytes. -/
def spc_modesense_caching (s : DevState) (pc : Nat) : List Nat :=
  if pc = 1 then
    [0x08, 0x12, 0, 0, 0, 0, 0, 0, 0, 0, 0, 0, 0, 0, 0, 0, 0, 0, 0, 0]
  else
    let b2 := if s.writeCache then 0x04 else 0
    [0x08, 0x12, b2, 0, 0, 0, 0, 0, 0, 0, 0, 0, 0x20, 0, 0, 0, 0, 0, 0, 0]

/-- spc_modesense_informational_exceptions: page 0x1c, 12 bytes. -/
def spc_modesense_informational_exceptions (_s : DevState) (_pc : Nat) : List Nat :=
  [0x1c, 0x0a, 0, 0, 0, 0, 0, 0, 0, 0, 0, 0]

/-- The modesense_handlers[] table: (page, subpage, generator). -/
def modesense_handlers : List (Nat × Nat × (DevState → Nat → List Nat)) :=
  [(0x01, 0x00, spc_modesense_rwrecovery),
   (0x08, 0x00, spc_modesense_caching),
   (0x0a, 0x00, spc_modesense_control),
   (0x1c, 0x00, spc_modesense_informational_exceptions)]

/-- spc_modesense_write_protect: set the WP bit (all device types). -/
def spc_modesense_write_protect (buf : List Nat) (i _type : Nat) : List Nat :=
  orByte buf i 0x80

/-- spc_modesense_dpofua: set the DPOFUA bit (disk type only). -/
def spc_modesense_dpofua (buf : List Nat) (i type : Nat) : List Nat :=
  if type = TYPE_DISK then orByte buf i 0x10 else buf

/-- spc_modesense_blockdesc: short block descriptor at `off`; returns 9. -/
def spc_modesense_blockdesc (buf : List Nat) (off blocks block_size : Nat) :
    List Nat × Nat :=
  let buf := setByte buf off 8
  let buf := putBe32 buf (off + 1) (min blocks 0xffffffff)
  let buf := putBe32 buf (off + 5) block_size
  (buf, 9)

/-- spc_modesense_long_blockdesc: long-LBA block descriptor at `off`. -/
def spc_modesense_long_blockdesc (buf : List Nat) (off blocks block_size : Nat) :
    List Nat × Nat :=
  if blocks ≤ 0xffffffff then
    let (buf, n) := spc_modesense_blockdesc buf (off + 3) blocks block_size
    (buf, n + 3)
  else
    let buf := setByte buf off 1          -- LONGLBA
    let buf := setByte buf (off + 3) 16
    let buf := putBe64 buf (off + 4) blocks
    let buf := putBe32 buf (off + 16) block_size
    (buf, 17)

/-- The mode-page section of spc_emulate_modesense: the 0x3f loop and the
    exact page/subpage scan, as a recursion over modesense_handlers. -/
def modesenseAllPages (s : DevState) (pc subpage : Nat) (ten : Bool) :
    List (Nat × Nat × (DevState → Nat → List Nat)) → List Nat → Nat →
    List Nat × Nat
  | [], buf, length => (buf, length)
  | (_, hsub, emulate) :: rest, buf, length =>
    -- "(handlers[i].subpage & ~subpage) == 0" on u8 operands
    if hsub &&& (0xff ^^^ subpage % 256) = 0 then
      let page := emulate s pc
      let buf := writeBytes buf length page
      if ¬ten ∧ length + page.length ≥ 255 then (buf, length)
      else modesenseAllPages s pc subpage ten rest buf (length + page.length)
    else modesenseAllPages s pc subpage ten rest buf length

/-- The exact-match scan of modesense_handlers. -/
def modesenseFindPage (page subpage : Nat) :
    List (Nat × Nat × (DevState → Nat → List Nat)) →
    Option (DevState → Nat → List Nat)
  | [] => none
  | (hp, hsub, emulate) :: rest =>
    if hp = page ∧ hsub = subpage then some emulate
    else modesenseFindPage page subpage rest

/-- spc_emulate_modesense.  Returns the generated buffer (SE_MODE_PAGE_BUF
    bytes, of which the first `length` are the response) and `length`.  The
    final memcpy into the command's data buffer truncates to
    min(SE_MODE_PAGE_BUF, data_length); the declared response is
    `buf.take length`. -/
def spc_emulate_modesense (s : DevState) (cdb : List Nat) :
    Except Sense (List Nat × Nat) :=
  let type := s.deviceType
  let ten := getByte cdb 0 = MODE_SENSE_10
  let dbd := getByte cdb 1 &&& 0x08 ≠ 0
  let llba := if ten then getByte cdb 1 &&& 0x10 ≠ 0 else false
  let pc := getByte cdb 2 >>> 6
  let page := getByte cdb 2 &&& 0x3f
  let subpage := getByte cdb 3
  let buf := List.replicate SE_MODE_PAGE_BUF 0
  let length := if ten then 3 else 2
  let buf := if s.lun_access_ro then spc_modesense_write_protect buf length type
             else buf
  let buf := if s.fua then spc_modesense_dpofua buf length type else buf
  let length := length + 1
  -- BLOCK DESCRIPTOR (disk devices only, and only when DBD is clear)
  let (buf, length) :=
    if ¬dbd ∧ type = TYPE_DISK then
      if ten then
        if llba then
          let (buf, n) := spc_modesense_long_blockdesc buf length s.blocks s.block_size
          (buf, length + n)
        else
          let length := length + 3
          let (buf, n) := spc_modesense_blockdesc buf length s.blocks s.block_size
          (buf, length + n)
      else
        let (buf, n) := spc_modesense_blockdesc buf length s.blocks s.block_size
        (buf, length + n)
    else
      if ten then (buf, length + 4) else (buf, length + 1)
  if page = 0x3f then
    if subpage ≠ 0x00 ∧ subpage ≠ 0xff then Except.error Sense.invalidCdbField
    else
      let (buf, length) := modesenseAllPages s pc subpage ten modesense_handlers buf length
      let buf := if ten then putBe16 buf 0 (length - 2) else setByte buf 0 (length - 1)
      Except.ok (buf, length)
  else
    match modesenseFindPage page subpage modesense_handlers with
    | some emulate =>
      let pagebytes := emulate s pc
      let buf := writeBytes buf length pagebytes
      let length := length + pagebytes.length
      let buf := if ten then putBe16 buf 0 (length - 2) else setByte buf 0 (length - 1)
      Except.ok (buf, length)
    | none => Except.error Sense.unknownModePage

/-- spc_emulate_modeselect.  `param` is the mapped parameter list; its length
    is the command's data_length.  A successful return completes the command
    with GOOD status. -/
def spc_emulate_modeselect (s : DevState) (cdb : List Nat) (param : List Nat) :
    Except Sense Unit :=
  let ten := getByte cdb 0 = MODE_SELECT_10
  let off := if ten then 8 else 4
  let pf := getByte cdb 1 &&& 0x10 ≠ 0
  if param.length = 0 then Except.ok ()
  else if param.length < off + 2 then Except.error Sense.parameterListLengthError
  else if ¬pf then Except.error Sense.invalidCdbField
  else
    let page := getByte param off &&& 0x3f
    let subpage := if getByte param off &&& 0x40 ≠ 0 then getByte param (off + 1) else 0
    match modesenseFindPage page subpage modesense_handlers with
    | some emulate =>
      let tbuf := emulate s 0
      let length := tbuf.length
      if param.length < off + length then Except.error Sense.parameterListLengthError
      else if (param.drop off).take length ≠ tbuf.map (· % 256) then
        Except.error Sense.invalidParameterList
      else Except.ok ()
    | none => Except.error Sense.unknownModePage

/-! ## Command dispatcher (spc_parse_cdb) -/

/-- The execute_cmd handler spc_parse_cdb installs (none = left untouched). -/
inductive Handler where
  | modeselect | modesense | prIn | prOut | scsi2Release | scsi2Reserve
  | requestSense | inquiry | xcopy | receiveCopyResults | reportLuns
  | testUnitReady | reportTargetPgs | reportSuppOpCodes | setTargetPgs
  deriving DecidableEq, Repr

/-- What spc_parse_cdb produces on success: the expected transfer size, the
    installed handler, and whether sam_task_attr was forced to HEAD-of-queue. -/
structure ParseResult where
  size : Nat
  handler : Option Handler := none
  headTag : Bool := false
  deriving DecidableEq, Repr

/-- spc_parse_cdb.  `data_length` is cmd->data_length (used as the size of
    the size-less SPC-2 RESERVE/RELEASE six-byte forms). -/
def spc_parse_cdb (s : DevState) (cdb : List Nat) (data_length : Nat) :
    Except Sense ParseResult :=
  let op := getByte cdb 0
  -- reservation gating pre-filter
  if (op = RESERVE ∨ op = RESERVE_10 ∨ op = RELEASE ∨ op = RELEASE_10) ∧
      (¬s.emulate_pr ∨ s.passthroughPgr) then
    Except.error Sense.unsupportedScsiOpcode
  else if (op = PERSISTENT_RESERVE_IN ∨ op = PERSISTENT_RESERVE_OUT) ∧
      ¬s.emulate_pr then
    Except.error Sense.unsupportedScsiOpcode
  else if op = MODE_SELECT then
    Except.ok { size := getByte cdb 4, handler := some Handler.modeselect }
  else if op = MODE_SELECT_10 then
    Except.ok { size := readBe16 cdb 7, handler := some Handler.modeselect }
  else if op = MODE_SENSE then
    Except.ok { size := getByte cdb 4, handler := some Handler.modesense }
  else if op = MODE_SENSE_10 then
    Except.ok { size := readBe16 cdb 7, handler := some Handler.modesense }
  else if op = LOG_SELECT ∨ op = LOG_SENSE then
    Except.ok { size := readBe16 cdb 7 }
  else if op = PERSISTENT_RESERVE_IN then
    Except.ok { size := readBe16 cdb 7, handler := some Handler.prIn }
  else if op = PERSISTENT_RESERVE_OUT then
    Except.ok { size := readBe32 cdb 5, handler := some Handler.prOut }
  else if op = RELEASE ∨ op = RELEASE_10 then
    Except.ok { size := if op = RELEASE_10 then readBe16 cdb 7 else data_length,
                handler := some Handler.scsi2Release }
  else if op = RESERVE ∨ op = RESERVE_10 then
    Except.ok { size := if op = RESERVE_10 then readBe16 cdb 7 else data_length,
                handler := some Handler.scsi2Reserve }
  else if op = REQUEST_SENSE then
    Except.ok { size := getByte cdb 4, handler := some Handler.requestSense }
  else if op = INQUIRY then
    Except.ok { size := readBe16 cdb 3, handler := some Handler.inquiry,
                headTag := true }
  else if op = SECURITY_PROTOCOL_IN ∨ op = SECURITY_PROTOCOL_OUT then
    Except.ok { size := readBe32 cdb 6 }
  else if op = EXTENDED_COPY then
    Except.ok { size := readBe32 cdb 10, handler := some Handler.xcopy }
  else if op = RECEIVE_COPY_RESULTS then
    Except.ok { size := readBe32 cdb 10, handler := some Handler.receiveCopyResults }
  else if op = READ_ATTRIBUTE ∨ op = WRITE_ATTRIBUTE then
    Except.ok { size := readBe32 cdb 10 }
  else if op = RECEIVE_DIAGNOSTIC ∨ op = SEND_DIAGNOSTIC then
    Except.ok { size := readBe16 cdb 3 }
  else if op = WRITE_BUFFER then
    Except.ok { size := getByte cdb 6 * 65536 + getByte cdb 7 * 256 + getByte cdb 8 }
  else if op = REPORT_LUNS then
    Except.ok { size := readBe32 cdb 6, handler := some Handler.reportLuns,
                headTag := true }
  else if op = TEST_UNIT_READY then
    Except.ok { size := 0, handler := some Handler.testUnitReady }
  else if op = MAINTENANCE_IN then
    if s.deviceType ≠ TYPE_ROM then
      let h := if getByte cdb 1 &&& 0x1f = MI_REPORT_SUPPORTED_OPERATION_CODES then
                 some Handler.reportSuppOpCodes
               else if getByte cdb 1 &&& 0x1f = MI_REPORT_TARGET_PGS then
                 some Handler.reportTargetPgs
               else none
      Except.ok { size := readBe32 cdb 6, handler := h }
    else
      Except.ok { size := readBe16 cdb 8 }
  else if op = MAINTENANCE_OUT then
    if s.deviceType ≠ TYPE_ROM then
      let h := if getByte cdb 1 = MO_SET_TARGET_PGS then some Handler.setTargetPgs
               else none
      Except.ok { size := readBe32 cdb 6, handler := h }
    else
      Except.ok { size := readBe16 cdb 8 }
  else
    Except.error Sense.unsupportedScsiOpcode

/-! ## LUN enumerator (spc_emulate_report_luns) -/

/-- Modelled from the spec: the `int_to_scsilun` encoder (scsi_common.c, not
    under src/) packing a LUN number into the 8-byte SCSI LUN structure used
    by each REPORT LUNS entry; LUN 0 encodes as eight zero bytes. -/
def int_to_scsilun (lun : Nat) : List Nat :=
  [lun / 256 % 256, lun % 256,
   lun / 16777216 % 256, lun / 65536 % 256,
   lun / 2 ^ 40 % 256, lun / 2 ^ 32 % 256,
   lun / 2 ^ 56 % 256, lun / 2 ^ 48 % 256]

/-- The hlist walk of spc_emulate_report_luns: counts every visible entry,
    copies only what fits in data_length (memcpy of min(8, rest)). -/
def reportLunsLoop (data_length : Nat) :
    List Nat → List Nat → Nat → Nat → List Nat × Nat × Nat
  | [], buf, lun_count, offset => (buf, lun_count, offset)
  | lun :: rest, buf, lun_count, offset =>
    let lun_count := lun_count + 1
    if offset ≥ data_length then reportLunsLoop data_length rest buf lun_count offset
    else
      let slun := int_to_scsilun lun
      let buf := writeBytes buf offset (slun.take (min 8 (data_length - offset)))
      reportLunsLoop data_length rest buf lun_count (offset + 8)

/-- spc_emulate_report_luns.  `luns` is the nexus's visible mapped-LUN list
    (`none` when there is no session: a passthrough command); `buf` is the
    mapped data buffer of `data_length` bytes.  Returns the buffer and the
    effective length passed to target_complete_cmd_with_length. -/
def spc_emulate_report_luns (luns : Option (List Nat)) (data_length : Nat)
    (buf : List Nat) : List Nat × Nat :=
  let (buf, lun_count, offset) :=
    match luns with
    | none => (buf, 0, 8)
    | some l => reportLunsLoop data_length l buf 0 8
  -- if no LUNs are accessible, report virtual LUN 0
  let (buf, lun_count) :=
    if lun_count = 0 then
      let slun := int_to_scsilun 0
      let buf := if data_length > 8 then
          writeBytes buf offset (slun.take (min 8 (data_length - offset)))
        else buf
      (buf, 1)
    else (buf, lun_count)
  let buf := writeBytes buf 0 ((be32List (lun_count * 8)).take (min 4 data_length))
  (buf, 8 + lun_count * 8)

/-! ## INQUIRY -/

/-- `strnlen(s, n)` on the NUL-free string content `s`. -/
def strnlen (s : List Nat) (n : Nat) : Nat := min s.length n

/-- spc_find_scsi_transport_vd: VERSION DESCRIPTOR for the transport. -/
def spc_find_scsi_transport_vd (proto_id : Nat) : Nat :=
  if proto_id = 0 then 0x0A20       -- SCSI_PROTOCOL_FCP -> FCP4
  else if proto_id = 5 then 0x0960  -- SCSI_PROTOCOL_ISCSI -> ISCSI
  else if proto_id = 6 then 0x0C60  -- SCSI_PROTOCOL_SAS -> SAS3
  else if proto_id = 3 then 0x0980  -- SCSI_PROTOCOL_SBP -> SBP3
  else if proto_id = 4 then 0x0940  -- SCSI_PROTOCOL_SRP -> SRP
  else 0

/-- spc_fill_alua_data: SCCS plus the TPGS field of the LUN's port group. -/
def spc_fill_alua_data (s : DevState) (buf : List Nat) : List Nat :=
  let buf := setByte buf 5 0x80
  match s.tgPtGp with
  | some gp => orByte buf 5 gp.accessType
  | none => buf

/-- spc_emulate_inquiry_std: fills the standard INQUIRY payload into `buf`
    (byte 0, the device type, is written by the caller). -/
def spc_emulate_inquiry_std (s : DevState) (buf : List Nat) : List Nat :=
  let buf := if s.deviceType = TYPE_TAPE then setByte buf 1 0x80 else buf
  let buf := setByte buf 2 0x06
  let buf := setByte buf 3 2
  let buf := spc_fill_alua_data s buf
  let buf := if s.emulate_3pc then orByte buf 5 0x8 else buf
  let buf := if s.sup_prot_ops_pass ∧ (s.pi_prot_type ≠ 0 ∨ s.sess_prot_type ≠ 0)
             then orByte buf 5 0x1 else buf
  let buf := if s.export_count > 1 then orByte buf 6 0x10 else buf
  let buf := setByte buf 7 0x2
  let buf := writeBytes buf 8
    (List.replicate (INQUIRY_VENDOR_LEN + INQUIRY_MODEL_LEN + INQUIRY_REVISION_LEN) 0x20)
  let buf := writeBytes buf 8 (s.vendor.take (strnlen s.vendor INQUIRY_VENDOR_LEN))
  let buf := writeBytes buf 16 (s.model.take (strnlen s.model INQUIRY_MODEL_LEN))
  let buf := writeBytes buf 32 (s.revision.take (strnlen s.revision INQUIRY_REVISION_LEN))
  let buf := putBe16 buf 58 0x00A0                            -- SAM5
  let buf := putBe16 buf 60 (spc_find_scsi_transport_vd s.proto_id)
  let buf := putBe16 buf 62 0x0460                            -- SPC4
  let buf := if s.deviceType = TYPE_DISK then putBe16 buf 64 0x04C0 else buf
  setByte buf 4 91

/-! ## VPD pages (spc_emulate_evpd_*) -/

/-- lib/hexdump.c hex_to_bin: hex digit value, or none for a non-hex byte. -/
def hexToBin (c : Nat) : Option Nat :=
  if 48 ≤ c ∧ c ≤ 57 then some (c - 48)
  else if 97 ≤ c ∧ c ≤ 102 then some (c - 97 + 10)
  else if 65 ≤ c ∧ c ≤ 70 then some (c - 65 + 10)
  else none

/-- One lowercase hex digit, as its ASCII byte. -/
def hexDigit (d : Nat) : Nat := if d < 10 then 48 + d else 87 + d

/-- sprintf "%04x" of a u16 value: exactly four lowercase hex digit bytes. -/
def hex4 (n : Nat) : List Nat :=
  [hexDigit (n / 4096 % 16), hexDigit (n / 256 % 16),
   hexDigit (n / 16 % 16), hexDigit (n % 16)]

/-- The nibble-packing loop of spc_gen_naa_6h_vendor_specific: consumes the
    unit-serial bytes, packing hex digits until byte `limit` is reached.
    `next = true` means the next digit ORs into the low nibble of buf[off]. -/
def naaNibbleLoop (limit : Nat) :
    List Nat → List Nat → Nat → Bool → List Nat
  | buf, [], _, _ => buf
  | buf, c :: rest, off, next =>
    if off < limit then
      match hexToBin c with
      | none => naaNibbleLoop limit buf rest off next
      | some val =>
        if next then naaNibbleLoop limit (orByte buf off val) rest (off + 1) false
        else naaNibbleLoop limit (setByte buf off (val <<< 4)) rest off true
    else buf

/-- spc_gen_naa_6h_vendor_specific, writing at `base` (= &buf[off] of the
    caller): NAA 6h + IEEE company id, then up to 13 further bytes packed
    from the hex digits of the unit serial. -/
def spc_gen_naa_6h_vendor_specific (s : DevState) (buf : List Nat) (base : Nat) :
    List Nat :=
  let buf := setByte buf base ((0x6 <<< 4) ||| ((s.company_id >>> 20) &&& 0xf))
  let buf := setByte buf (base + 1) ((s.company_id >>> 12) &&& 0xff)
  let buf := setByte buf (base + 2) ((s.company_id >>> 4) &&& 0xff)
  let buf := setByte buf (base + 3) ((s.company_id &&& 0xf) <<< 4)
  -- cnt = off + 13 with off = 3: the loop stops at relative byte 16
  naaNibbleLoop (base + 16) buf s.unit_serial (base + 3) true

/-- spc_emulate_evpd_80 (unit serial number). -/
def spc_emulate_evpd_80 (s : DevState) (buf : List Nat) : List Nat :=
  if s.hasUnitSerial then
    let len := s.unit_serial.length        -- sprintf "%s"
    let buf := writeBytes buf 4 (s.unit_serial ++ [0])
    setByte buf 3 (len + 1)                -- extra byte for the NUL
  else buf

/-- spc_emulate_evpd_83 (device identification).  Returns the buffer, the
    running offset `off` at which encoding stopped, and the accumulated
    designator length `len` that is patched back at bytes 2-3. -/
def spc_emulate_evpd_83 (s : DevState) (buf : List Nat) :
    List Nat × Nat × Nat :=
  let off := 4
  -- NAA IEEE Registered Extended designator (unit serial configured only)
  let (buf, off, len) :=
    if ¬s.hasUnitSerial then (buf, off, 0)
    else
      let buf := setByte buf off 0x1              -- CODE SET == Binary
      let off := off + 1
      let buf := setByte buf off 0x00             -- ASSOCIATION == LU
      let buf := orByte buf off 0x3               -- NAA identifier
      let off := off + 1
      let off := off + 1
      let buf := setByte buf off 0x10             -- designator length
      let off := off + 1
      let buf := spc_gen_naa_6h_vendor_specific s buf off
      let len := 20
      (buf, len + 4, len)
  -- T10 Vendor Identifier designator
  let id_len := 8
  let (buf, id_len) :=
    if s.hasUnitSerial then
      let str := s.model ++ [0x3a] ++ s.unit_serial   -- sprintf "%s:%s"
      (writeBytes buf (off + 12) (str ++ [0]), id_len + str.length)
    else (buf, id_len)
  let buf := setByte buf off 0x2                  -- ASCII
  let buf := setByte buf (off + 1) 0x1            -- T10 Vendor ID
  let buf := setByte buf (off + 2) 0x0
  let buf := writeBytes buf (off + 4) (List.replicate INQUIRY_VENDOR_LEN 0x20)
  let buf := writeBytes buf (off + 4) (s.vendor.take (strnlen s.vendor INQUIRY_VENDOR_LEN))
  let id_len := id_len + 1                        -- extra byte for the NUL
  let buf := setByte buf (off + 3) id_len
  let len := len + (id_len + 4)
  let off := off + (id_len + 4)
  -- Relative target port identifier designator
  let buf := setByte buf off (s.proto_id <<< 4)
  let buf := orByte buf off 0x1                   -- CODE SET == Binary
  let off := off + 1
  let buf := setByte buf off 0x80                 -- PIV=1
  let buf := orByte buf off 0x10                  -- ASSOCIATION == target port
  let buf := orByte buf off 0x4                   -- Relative target port id
  let off := off + 1
  let off := off + 1
  let buf := setByte buf off 4                    -- designator length
  let off := off + 1
  let off := off + 2
  let buf := putBe16 buf off s.rtpi
  let off := off + 2
  let len := len + 8
  -- Target port group designator (only with a bound tg_pt_gp)
  let (buf, off, len) :=
    match s.tgPtGp with
    | none => (buf, off, len)
    | some gp =>
      let buf := setByte buf off (s.proto_id <<< 4)
      let buf := orByte buf off 0x1
      let off := off + 1
      let buf := setByte buf off 0x80
      let buf := orByte buf off 0x10
      let buf := orByte buf off 0x5               -- Target port group id
      let off := off + 1
      let off := off + 1
      let buf := setByte buf off 4
      let off := off + 1
      let off := off + 2
      let buf := putBe16 buf off gp.id
      let off := off + 2
      (buf, off, len + 8)
  -- Logical unit group designator (only with LU group membership)
  let (buf, off, len) :=
    match s.luGpId with
    | none => (buf, off, len)
    | some lu_gp_id =>
      let buf := orByte buf off 0x1
      let off := off + 1
      let buf := orByte buf off 0x6               -- Logical unit group id
      let off := off + 1
      let off := off + 1
      let buf := setByte buf off 4
      let off := off + 1
      let off := off + 2
      let buf := putBe16 buf off lu_gp_id
      let off := off + 2
      (buf, off, len + 8)
  -- SCSI name string designator: "<wwn>,t,0x<tpgt>"
  let buf := setByte buf off (s.proto_id <<< 4)
  let buf := orByte buf off 0x3                   -- CODE SET == UTF-8
  let off := off + 1
  let buf := setByte buf off 0x80
  let buf := orByte buf off 0x10
  let buf := orByte buf off 0x8                   -- SCSI name string
  let off := off + 1
  let off := off + 2
  -- tpg_get_tag returns a u16, printed "%04x"
  let scsi_name := s.fabric_wwn ++ [0x2c, 0x74, 0x2c, 0x30, 0x78] ++ hex4 (s.tpgt % 65536)
  let buf := writeBytes buf off (scsi_name ++ [0])
  let scsi_name_len := scsi_name.length + 1       -- include NUL terminator
  let padding := (4 - scsi_name_len % 4) % 4      -- (-scsi_name_len) & 3
  let scsi_name_len := scsi_name_len + padding
  let scsi_name_len := if scsi_name_len > 256 then 256 else scsi_name_len
  let buf := setByte buf (off - 1) scsi_name_len
  let off := off + scsi_name_len
  let len := len + (scsi_name_len + 4)
  -- Target device designator: just "<wwn>"
  let buf := setByte buf off (s.proto_id <<< 4)
  let buf := orByte buf off 0x3
  let off := off + 1
  let buf := setByte buf off 0x80
  let buf := orByte buf off 0x20                  -- ASSOCIATION == target device
  let buf := orByte buf off 0x8
  let off := off + 1
  let off := off + 2
  let buf := writeBytes buf off (s.fabric_wwn ++ [0])
  let scsi_target_len := s.fabric_wwn.length + 1
  let padding := (4 - scsi_target_len % 4) % 4
  let scsi_target_len := scsi_target_len + padding
  let scsi_target_len := if scsi_target_len > 256 then 256 else scsi_target_len
  let buf := setByte buf (off - 1) scsi_target_len
  let off := off + scsi_target_len
  let len := len + (scsi_target_len + 4)
  (putBe16 buf 2 len, off, len)

/-- spc_emulate_evpd_86 (extended INQUIRY data). -/
def spc_emulate_evpd_86 (s : DevState) (buf : List Nat) : List Nat :=
  let buf := setByte buf 3 0x3c
  let buf :=
    if s.sup_prot_ops_pass then
      if s.pi_prot_type = 1 ∨ s.sess_prot_type = 1 then setByte buf 4 0x5
      else if s.pi_prot_type = 3 ∨ s.sess_prot_type = 3 then setByte buf 4 0x4
      else buf
    else buf
  let buf :=
    if s.deviceType = TYPE_DISK ∧ s.sup_prot_ops_pass ∧
        (s.pi_prot_type ≠ 0 ∨ s.sess_prot_type ≠ 0) then
      orByte buf 4 (0x3 <<< 3)
    else buf
  let buf := setByte buf 5 0x07
  let buf := if s.writeCache then setByte buf 6 0x01 else buf
  if s.lbaMapPresent then setByte buf 8 0x10 else buf

/-- PAGE_SIZE of the build (arch constant; 4096 on the usual targets). -/
abbrev PAGE_SIZE : Nat := 4096

/-- mult_frac(x, n, d) without intermediate overflow: (x/d)*n + (x%d)*n/d. -/
def mult_frac (x n d : Nat) : Nat := x / d * n + x % d * n / d

/-- min_not_zero: the smaller operand, with zero meaning "no limit". -/
def min_not_zero (a b : Nat) : Nat :=
  if a = 0 then b else if b = 0 then a else min a b

/-- spc_emulate_evpd_b0 (block limits). -/
def spc_emulate_evpd_b0 (s : DevState) (buf : List Nat) : List Nat :=
  let have_tp := s.emulate_tpu ∨ s.emulate_tpws
  let buf := setByte buf 0 s.deviceType
  let buf := setByte buf 3 (if have_tp then 0x3c else 0x10)
  let buf := setByte buf 4 0x01                   -- WSNZ
  let buf := if s.emulate_caw then setByte buf 5 0x01 else buf
  let buf :=
    match s.get_io_min with
    | some m => if m ≠ 0 then putBe16 buf 6 (m / s.block_size) else putBe16 buf 6 1
    | none => putBe16 buf 6 1
  let mtl := if s.max_data_sg_nents ≠ 0 then
      s.max_data_sg_nents * PAGE_SIZE / s.block_size
    else 0
  let io_max_blocks := mult_frac s.hw_max_sectors s.hw_block_size s.block_size
  let buf := putBe32 buf 8 (min_not_zero mtl io_max_blocks)
  let buf :=
    match s.get_io_opt with
    | some o => if o ≠ 0 then putBe32 buf 12 (o / s.block_size)
                else putBe32 buf 12 s.optimal_sectors
    | none => putBe32 buf 12 s.optimal_sectors
  let buf :=
    if have_tp then
      let buf := putBe32 buf 20 s.max_unmap_lba_count
      let buf := putBe32 buf 24 s.max_unmap_block_desc_count
      let buf := putBe32 buf 28 s.unmap_granularity
      let buf := putBe32 buf 32 s.unmap_granularity_alignment
      if s.unmap_granularity_alignment ≠ 0 then orByte buf 32 0x80 else buf
    else buf
  putBe64 buf 36 s.max_write_same_len

/-- spc_emulate_evpd_b1 (block device characteristics). -/
def spc_emulate_evpd_b1 (s : DevState) (buf : List Nat) : List Nat :=
  let buf := setByte buf 0 s.deviceType
  let buf := setByte buf 3 0x3c
  setByte buf 5 (if s.is_nonrot then 1 else 0)

/-- spc_emulate_evpd_b2 (thin provisioning). -/
def spc_emulate_evpd_b2 (s : DevState) (buf : List Nat) : List Nat :=
  let buf := setByte buf 0 s.deviceType
  let buf := putBe16 buf 2 0x0004
  let buf := setByte buf 4 0x00                   -- THRESHOLD EXPONENT
  let buf := if s.emulate_tpu then setByte buf 5 0x80 else buf
  let buf := if s.emulate_tpws then orByte buf 5 (0x40 ||| 0x20) else buf
  if (s.emulate_tpu ∨ s.emulate_tpws) ∧ s.unmap_zeroes_data then
    orByte buf 5 0x04
  else buf

/-- spc_emulate_evpd_b3 (referrals). -/
def spc_emulate_evpd_b3 (s : DevState) (buf : List Nat) : List Nat :=
  let buf := setByte buf 0 s.deviceType
  let buf := setByte buf 3 0x0c
  let buf := putBe32 buf 8 s.lba_map_segment_size
  putBe32 buf 12 s.lba_map_segment_multiplier

/-- spc_emulate_evpd_00 (supported VPD pages): only populated once a unit
    serial has been configured. -/
def spc_emulate_evpd_00 (s : DevState) (buf : List Nat) : List Nat :=
  if s.hasUnitSerial then
    let buf := setByte buf 3 8                    -- ARRAY_SIZE(evpd_handlers)
    writeBytes buf 4 [0x00, 0x80, 0x83, 0x86, 0xb0, 0xb1, 0xb2, 0xb3]
  else buf

/-- The evpd_handlers[] table: (page code, generator). -/
def evpd_handlers : List (Nat × (DevState → List Nat → List Nat)) :=
  [(0x00, spc_emulate_evpd_00),
   (0x80, spc_emulate_evpd_80),
   (0x83, fun s b => (spc_emulate_evpd_83 s b).1),
   (0x86, spc_emulate_evpd_86),
   (0xb0, spc_emulate_evpd_b0),
   (0xb1, spc_emulate_evpd_b1),
   (0xb2, spc_emulate_evpd_b2),
   (0xb3, spc_emulate_evpd_b3)]

/-- The VPD dispatch loop of spc_emulate_inquiry. -/
def inquiryEvpdLoop (s : DevState) (page : Nat) (buf : List Nat) :
    List (Nat × (DevState → List Nat → List Nat)) →
    Except Sense (List Nat × Nat)
  | [] => Except.error Sense.invalidCdbField      -- unknown VPD code
  | (p, emulate) :: rest =>
    if page = p then
      let buf := setByte buf 1 page
      let buf := emulate s buf
      Except.ok (buf, readBe16 buf 2 + 4)
    else inquiryEvpdLoop s page buf rest

/-- spc_emulate_inquiry: the kzalloc'd SE_INQUIRY_BUF response and the
    effective length handed to target_complete_cmd_with_length (the copy to
    the data buffer truncates to min(SE_INQUIRY_BUF, data_length)). -/
def spc_emulate_inquiry (s : DevState) (cdb : List Nat) :
    Except Sense (List Nat × Nat) :=
  let buf := List.replicate SE_INQUIRY_BUF 0
  let buf := setByte buf 0 s.deviceType
  if getByte cdb 1 &&& 0x1 = 0 then
    if getByte cdb 2 ≠ 0 then Except.error Sense.invalidCdbField
    else
      let buf := spc_emulate_inquiry_std s buf
      Except.ok (buf, getByte buf 4 + 5)
  else
    inquiryEvpdLoop s (getByte cdb 2) buf evpd_handlers

/-! ## Opcode descriptor table (REPORT SUPPORTED OPERATION CODES) -/

/-- The named `.enabled` function pointers of the descriptor table. -/
inductive EnabledTag where
  | ws        -- tcm_is_ws_enabled
  | caw       -- tcm_is_caw_enabled
  | repRef    -- tcm_is_rep_ref_enabled
  | unmapOp   -- tcm_is_unmap_enabled
  | pr        -- tcm_is_pr_enabled
  | threePc   -- tcm_is_3pc_enabled
  | rsoc      -- spc_rsoc_enabled
  | setTpg    -- tcm_is_set_tpg_enabled
  deriving DecidableEq, Repr

/-- The named `.update_usage_bits` function pointers. -/
inductive UsageUpdateTag where
  | dpofua    -- set_dpofua_usage_bits
  | dpofua32  -- set_dpofua_usage_bits32
  deriving DecidableEq, Repr

/-- struct target_opcode_descriptor. -/
structure Descr where
  opcode : Nat
  serv_action_valid : Bool := false
  service_action : Nat := 0
  cdb_size : Nat
  usage_bits : List Nat
  enabled : Option EnabledTag := none
  update_usage_bits : Option UsageUpdateTag := none
  nominal_timeout : Nat := 0
  recommended_timeout : Nat := 0
  specific_timeout : Nat := 0
  deriving DecidableEq, Repr

/-- tcm_is_ws_enabled. -/
def tcm_is_ws_enabled (_d : Descr) (s : DevState) : Bool :=
  (s.emulate_tpws ∧ s.hasExecuteUnmap) ∨ s.hasExecuteWriteSame

/-- tcm_is_caw_enabled. -/
def tcm_is_caw_enabled (_d : Descr) (s : DevState) : Bool := s.emulate_caw

/-- tcm_is_rep_ref_enabled. -/
def tcm_is_rep_ref_enabled (_d : Descr) (s : DevState) : Bool := s.lbaMapPresent

/-- tcm_is_unmap_enabled. -/
def tcm_is_unmap_enabled (_d : Descr) (s : DevState) : Bool :=
  s.hasExecuteUnmap ∧ s.emulate_tpu

/-- tcm_is_pr_enabled. -/
def tcm_is_pr_enabled (d : Descr) (s : DevState) : Bool :=
  if ¬s.emulate_pr then false
  else if ¬s.passthroughPgr then true
  else if d.opcode = RESERVE ∨ d.opcode = RESERVE_10 ∨
      d.opcode = RELEASE ∨ d.opcode = RELEASE_10 then false
  else if d.opcode = PERSISTENT_RESERVE_OUT then
    ¬(d.service_action = PRO_REGISTER_AND_MOVE ∨
      d.service_action = PRO_REPLACE_LOST_RESERVATION)
  else if d.opcode = PERSISTENT_RESERVE_IN then
    d.service_action ≠ PRI_READ_FULL_STATUS
  else true

/-- tcm_is_3pc_enabled. -/
def tcm_is_3pc_enabled (_d : Descr) (s : DevState) : Bool := s.emulate_3pc

/-- spc_rsoc_enabled. -/
def spc_rsoc_enabled (_d : Descr) (s : DevState) : Bool := s.emulate_rsoc

/-- tcm_is_set_tpg_enabled. -/
def tcm_is_set_tpg_enabled (_d : Descr) (s : DevState) : Bool :=
  match s.tgPtGp with
  | none => false
  | some gp => gp.accessType &&& TPGS_EXPLICIT_ALUA ≠ 0

/-- `!descr->enabled || descr->enabled(descr, cmd)`. -/
def descrEnabled (d : Descr) (s : DevState) : Bool :=
  match d.enabled with
  | none => true
  | some EnabledTag.ws => tcm_is_ws_enabled d s
  | some EnabledTag.caw => tcm_is_caw_enabled d s
  | some EnabledTag.repRef => tcm_is_rep_ref_enabled d s
  | some EnabledTag.unmapOp => tcm_is_unmap_enabled d s
  | some EnabledTag.pr => tcm_is_pr_enabled d s
  | some EnabledTag.threePc => tcm_is_3pc_enabled d s
  | some EnabledTag.rsoc => spc_rsoc_enabled d s
  | some EnabledTag.setTpg => tcm_is_set_tpg_enabled d s

/-- set_dpofua_usage_bits / set_dpofua_usage_bits32 on a usage-bit buffer. -/
def applyUsageUpdate (t : UsageUpdateTag) (usage : List Nat) (s : DevState) :
    List Nat :=
  let i := match t with | UsageUpdateTag.dpofua => 1 | UsageUpdateTag.dpofua32 => 10
  if ¬s.fua then setByte usage i (getByte usage i &&& 0xe7)   -- &= ~0x18
  else setByte usage i (getByte usage i ||| 0x18)

def tcm_opcode_read6 : Descr :=
  { opcode := READ_6, cdb_size := 6,
    usage_bits := [READ_6, 0x1f, 0xff, 0xff, 0xff, SCSI_CONTROL_MASK] }

def tcm_opcode_read10 : Descr :=
  { opcode := READ_10, cdb_size := 10,
    usage_bits := [READ_10, 0xf8, 0xff, 0xff, 0xff, 0xff,
                   SCSI_GROUP_NUMBER_MASK, 0xff, 0xff, SCSI_CONTROL_MASK],
    update_usage_bits := some UsageUpdateTag.dpofua }

def tcm_opcode_read12 : Descr :=
  { opcode := READ_12, cdb_size := 12,
    usage_bits := [READ_12, 0xf8, 0xff, 0xff, 0xff, 0xff, 0xff, 0xff,
                   0xff, 0xff, SCSI_GROUP_NUMBER_MASK, SCSI_CONTROL_MASK],
    update_usage_bits := some UsageUpdateTag.dpofua }

def tcm_opcode_read16 : Descr :=
  { opcode := READ_16, cdb_size := 16,
    usage_bits := [READ_16, 0xf8, 0xff, 0xff, 0xff, 0xff, 0xff, 0xff,
                   0xff, 0xff, 0xff, 0xff, 0xff, 0xff,
                   SCSI_GROUP_NUMBER_MASK, SCSI_CONTROL_MASK],
    update_usage_bits := some UsageUpdateTag.dpofua }

def tcm_opcode_write6 : Descr :=
  { opcode := WRITE_6, cdb_size := 6,
    usage_bits := [WRITE_6, 0x1f, 0xff, 0xff, 0xff, SCSI_CONTROL_MASK] }

def tcm_opcode_write10 : Descr :=
  { opcode := WRITE_10, cdb_size := 10,
    usage_bits := [WRITE_10, 0xf8, 0xff, 0xff, 0xff, 0xff,
                   SCSI_GROUP_NUMBER_MASK, 0xff, 0xff, SCSI_CONTROL_MASK],
    update_usage_bits := some UsageUpdateTag.dpofua }

def tcm_opcode_write_verify10 : Descr :=
  { opcode := WRITE_VERIFY, cdb_size := 10,
    usage_bits := [WRITE_VERIFY, 0xf0, 0xff, 0xff, 0xff, 0xff,
                   SCSI_GROUP_NUMBER_MASK, 0xff, 0xff, SCSI_CONTROL_MASK],
    update_usage_bits := some UsageUpdateTag.dpofua }

def tcm_opcode_write12 : Descr :=
  { opcode := WRITE_12, cdb_size := 12,
    usage_bits := [WRITE_12, 0xf8, 0xff, 0xff, 0xff, 0xff, 0xff, 0xff,
                   0xff, 0xff, SCSI_GROUP_NUMBER_MASK, SCSI_CONTROL_MASK],
    update_usage_bits := some UsageUpdateTag.dpofua }

def tcm_opcode_write16 : Descr :=
  { opcode := WRITE_16, cdb_size := 16,
    usage_bits := [WRITE_16, 0xf8, 0xff, 0xff, 0xff, 0xff, 0xff, 0xff,
                   0xff, 0xff, 0xff, 0xff, 0xff, 0xff,
                   SCSI_GROUP_NUMBER_MASK, SCSI_CONTROL_MASK],
    update_usage_bits := some UsageUpdateTag.dpofua }

def tcm_opcode_write_verify16 : Descr :=
  { opcode := WRITE_VERIFY_16, cdb_size := 16,
    usage_bits := [WRITE_VERIFY_16, 0xf0, 0xff, 0xff, 0xff, 0xff, 0xff, 0xff,
                   0xff, 0xff, 0xff, 0xff, 0xff, 0xff,
                   SCSI_GROUP_NUMBER_MASK, SCSI_CONTROL_MASK],
    update_usage_bits := some UsageUpdateTag.dpofua }

def tcm_opcode_write_same32 : Descr :=
  { opcode := VARIABLE_LENGTH_CMD, serv_action_valid := true,
    service_action := WRITE_SAME_32, cdb_size := 32,
    usage_bits := [VARIABLE_LENGTH_CMD, SCSI_CONTROL_MASK, 0x00, 0x00,
                   0x00, 0x00, SCSI_GROUP_NUMBER_MASK, 0x18,
                   0x00, WRITE_SAME_32, 0xe8, 0x00,
                   0xff, 0xff, 0xff, 0xff, 0xff, 0xff, 0xff, 0xff,
                   0x00, 0x00, 0x00, 0x00, 0x00, 0x00, 0x00, 0x00,
                   0xff, 0xff, 0xff, 0xff],
    enabled := some EnabledTag.ws,
    update_usage_bits := some UsageUpdateTag.dpofua32 }

def tcm_opcode_compare_write : Descr :=
  { opcode := COMPARE_AND_WRITE, cdb_size := 16,
    usage_bits := [COMPARE_AND_WRITE, 0x18, 0xff, 0xff, 0xff, 0xff, 0xff, 0xff,
                   0xff, 0xff, 0x00, 0x00, 0x00, 0xff,
                   SCSI_GROUP_NUMBER_MASK, SCSI_CONTROL_MASK],
    enabled := some EnabledTag.caw,
    update_usage_bits := some UsageUpdateTag.dpofua }

def tcm_opcode_read_capacity : Descr :=
  { opcode := READ_CAPACITY, cdb_size := 10,
    usage_bits := [READ_CAPACITY, 0x00, 0xff, 0xff, 0xff, 0xff, 0x00, 0x00,
                   0x01, SCSI_CONTROL_MASK] }

def tcm_opcode_read_capacity16 : Descr :=
  { opcode := SERVICE_ACTION_IN_16, serv_action_valid := true,
    service_action := SAI_READ_CAPACITY_16, cdb_size := 16,
    usage_bits := [SERVICE_ACTION_IN_16, SAI_READ_CAPACITY_16, 0x00, 0x00,
                   0x00, 0x00, 0x00, 0x00, 0x00, 0x00, 0xff, 0xff,
                   0xff, 0xff, 0x00, SCSI_CONTROL_MASK] }

def tcm_opcode_read_report_refferals : Descr :=
  { opcode := SERVICE_ACTION_IN_16, serv_action_valid := true,
    service_action := SAI_REPORT_REFERRALS, cdb_size := 16,
    usage_bits := [SERVICE_ACTION_IN_16, SAI_REPORT_REFERRALS, 0x00, 0x00,
                   0x00, 0x00, 0x00, 0x00, 0x00, 0x00, 0xff, 0xff,
                   0xff, 0xff, 0x00, SCSI_CONTROL_MASK],
    enabled := some EnabledTag.repRef }

def tcm_opcode_sync_cache : Descr :=
  { opcode := SYNCHRONIZE_CACHE, cdb_size := 10,
    usage_bits := [SYNCHRONIZE_CACHE, 0x02, 0xff, 0xff, 0xff, 0xff,
                   SCSI_GROUP_NUMBER_MASK, 0xff, 0xff, SCSI_CONTROL_MASK] }

def tcm_opcode_sync_cache16 : Descr :=
  { opcode := SYNCHRONIZE_CACHE_16, cdb_size := 16,
    usage_bits := [SYNCHRONIZE_CACHE_16, 0x02, 0xff, 0xff, 0xff, 0xff, 0xff, 0xff,
                   0xff, 0xff, 0xff, 0xff, 0xff, 0xff,
                   SCSI_GROUP_NUMBER_MASK, SCSI_CONTROL_MASK] }

def tcm_opcode_unmap : Descr :=
  { opcode := UNMAP, cdb_size := 10,
    usage_bits := [UNMAP, 0x00, 0x00, 0x00, 0x00, 0x00,
                   SCSI_GROUP_NUMBER_MASK, 0xff, 0xff, SCSI_CONTROL_MASK],
    enabled := some EnabledTag.unmapOp }

def tcm_opcode_write_same : Descr :=
  { opcode := WRITE_SAME, cdb_size := 10,
    usage_bits := [WRITE_SAME, 0xe8, 0xff, 0xff, 0xff, 0xff,
                   SCSI_GROUP_NUMBER_MASK, 0xff, 0xff, SCSI_CONTROL_MASK],
    enabled := some EnabledTag.ws }

def tcm_opcode_write_same16 : Descr :=
  { opcode := WRITE_SAME_16, cdb_size := 16,
    usage_bits := [WRITE_SAME_16, 0xe8, 0xff, 0xff, 0xff, 0xff, 0xff, 0xff,
                   0xff, 0xff, 0xff, 0xff, 0xff, 0xff,
                   SCSI_GROUP_NUMBER_MASK, SCSI_CONTROL_MASK],
    enabled := some EnabledTag.ws }

def tcm_opcode_verify : Descr :=
  { opcode := VERIFY, cdb_size := 10,
    usage_bits := [VERIFY, 0x00, 0xff, 0xff, 0xff, 0xff,
                   SCSI_GROUP_NUMBER_MASK, 0xff, 0xff, SCSI_CONTROL_MASK] }

def tcm_opcode_verify16 : Descr :=
  { opcode := VERIFY_16, cdb_size := 16,
    usage_bits := [VERIFY_16, 0x00, 0xff, 0xff, 0xff, 0xff, 0xff, 0xff,
                   0xff, 0xff, 0xff, 0xff, 0xff, 0xff,
                   SCSI_GROUP_NUMBER_MASK, SCSI_CONTROL_MASK] }

def tcm_opcode_start_stop : Descr :=
  { opcode := START_STOP, cdb_size := 6,
    usage_bits := [START_STOP, 0x01, 0x00, 0x00, 0x01, SCSI_CONTROL_MASK] }

def tcm_opcode_mode_select : Descr :=
  { opcode := MODE_SELECT, cdb_size := 6,
    usage_bits := [ MODE_SELECT, 0x10, 0x00, 0x00, 0xff, SCSI_CONTROL_MASK] }

def tcm_opcode_mode_select10 : Descr :=
  { opcode := MODE_SELECT_10, cdb_size := 10,
    usage_bits := [ MODE_SELECT_10, 0x10, 0x00, 0x00, 0x00, 0x00, 0x00, 0xff,
                   0xff, SCSI_CONTROL_MASK] }

def tcm_opcode_mode_sense : Descr :=
  { opcode := MODE_SENSE, cdb_size := 6,
    usage_bits := [ MODE_SENSE, 0x08, 0xff, 0xff, 0xff, SCSI_CONTROL_MASK] }

def tcm_opcode_mode_sense10 : Descr :=
  { opcode := MODE_SENSE_10, cdb_size := 10,
    usage_bits := [ MODE_SENSE_10, 0x18, 0xff, 0xff, 0x00, 0x00, 0x00, 0xff,
                   0xff, SCSI_CONTROL_MASK] }

def tcm_opcode_pri_read_keys : Descr :=
  { opcode := PERSISTENT_RESERVE_IN, serv_action_valid := true,
    service_action := PRI_READ_KEYS, cdb_size := 10,
    usage_bits := [PERSISTENT_RESERVE_IN, PRI_READ_KEYS, 0x00, 0x00,
                   0x00, 0x00, 0x00, 0xff, 0xff, SCSI_CONTROL_MASK] }

def tcm_opcode_pri_read_resrv : Descr :=
  { opcode := PERSISTENT_RESERVE_IN, serv_action_valid := true,
    service_action := PRI_READ_RESERVATION, cdb_size := 10,
    usage_bits := [PERSISTENT_RESERVE_IN, PRI_READ_RESERVATION, 0x00, 0x00,
                   0x00, 0x00, 0x00, 0xff, 0xff, SCSI_CONTROL_MASK] }

def tcm_opcode_pri_read_caps : Descr :=
  { opcode := PERSISTENT_RESERVE_IN, serv_action_valid := true,
    service_action := PRI_REPORT_CAPABILITIES, cdb_size := 10,
    usage_bits := [PERSISTENT_RESERVE_IN, PRI_REPORT_CAPABILITIES, 0x00, 0x00,
                   0x00, 0x00, 0x00, 0xff, 0xff, SCSI_CONTROL_MASK],
    enabled := some EnabledTag.pr }

def tcm_opcode_pri_read_full_status : Descr :=
  { opcode := PERSISTENT_RESERVE_IN, serv_action_valid := true,
    service_action := PRI_READ_FULL_STATUS, cdb_size := 10,
    usage_bits := [PERSISTENT_RESERVE_IN, PRI_READ_FULL_STATUS, 0x00, 0x00,
                   0x00, 0x00, 0x00, 0xff, 0xff, SCSI_CONTROL_MASK],
    enabled := some EnabledTag.pr }

def tcm_opcode_pro_register : Descr :=
  { opcode := PERSISTENT_RESERVE_OUT, serv_action_valid := true,
    service_action := PRO_REGISTER, cdb_size := 10,
    usage_bits := [PERSISTENT_RESERVE_OUT, PRO_REGISTER, 0xff, 0x00,
                   0x00, 0xff, 0xff, 0xff, 0xff, SCSI_CONTROL_MASK],
    enabled := some EnabledTag.pr }

def tcm_opcode_pro_reserve : Descr :=
  { opcode := PERSISTENT_RESERVE_OUT, serv_action_valid := true,
    service_action := PRO_RESERVE, cdb_size := 10,
    usage_bits := [PERSISTENT_RESERVE_OUT, PRO_RESERVE, 0xff, 0x00,
                   0x00, 0xff, 0xff, 0xff, 0xff, SCSI_CONTROL_MASK],
    enabled := some EnabledTag.pr }

def tcm_opcode_pro_release : Descr :=
  { opcode := PERSISTENT_RESERVE_OUT, serv_action_valid := true,
    service_action := PRO_RELEASE, cdb_size := 10,
    usage_bits := [PERSISTENT_RESERVE_OUT, PRO_RELEASE, 0xff, 0x00,
                   0x00, 0xff, 0xff, 0xff, 0xff, SCSI_CONTROL_MASK],
    enabled := some EnabledTag.pr }

def tcm_opcode_pro_clear : Descr :=
  { opcode := PERSISTENT_RESERVE_OUT, serv_action_valid := true,
    service_action := PRO_CLEAR, cdb_size := 10,
    usage_bits := [PERSISTENT_RESERVE_OUT, PRO_CLEAR, 0xff, 0x00,
                   0x00, 0xff, 0xff, 0xff, 0xff, SCSI_CONTROL_MASK],
    enabled := some EnabledTag.pr }

def tcm_opcode_pro_preempt : Descr :=
  { opcode := PERSISTENT_RESERVE_OUT, serv_action_valid := true,
    service_action := PRO_PREEMPT, cdb_size := 10,
    usage_bits := [PERSISTENT_RESERVE_OUT, PRO_PREEMPT, 0xff, 0x00,
                   0x00, 0xff, 0xff, 0xff, 0xff, SCSI_CONTROL_MASK],
    enabled := some EnabledTag.pr }

def tcm_opcode_pro_preempt_abort : Descr :=
  { opcode := PERSISTENT_RESERVE_OUT, serv_action_valid := true,
    service_action := PRO_PREEMPT_AND_ABORT, cdb_size := 10,
    usage_bits := [PERSISTENT_RESERVE_OUT, PRO_PREEMPT_AND_ABORT, 0xff, 0x00,
                   0x00, 0xff, 0xff, 0xff, 0xff, SCSI_CONTROL_MASK],
    enabled := some EnabledTag.pr }

def tcm_opcode_pro_reg_ign_exist : Descr :=
  { opcode := PERSISTENT_RESERVE_OUT, serv_action_valid := true,
    service_action := PRO_REGISTER_AND_IGNORE_EXISTING_KEY, cdb_size := 10,
    usage_bits := [PERSISTENT_RESERVE_OUT, PRO_REGISTER_AND_IGNORE_EXISTING_KEY,
                   0xff, 0x00, 0x00, 0xff, 0xff, 0xff, 0xff, SCSI_CONTROL_MASK],
    enabled := some EnabledTag.pr }

def tcm_opcode_pro_register_move : Descr :=
  { opcode := PERSISTENT_RESERVE_OUT, serv_action_valid := true,
    service_action := PRO_REGISTER_AND_MOVE, cdb_size := 10,
    usage_bits := [PERSISTENT_RESERVE_OUT, PRO_REGISTER_AND_MOVE, 0xff, 0x00,
                   0x00, 0xff, 0xff, 0xff, 0xff, SCSI_CONTROL_MASK],
    enabled := some EnabledTag.pr }

def tcm_opcode_release : Descr :=
  { opcode := RELEASE, cdb_size := 6,
    usage_bits := [RELEASE, 0x00, 0x00, 0x00, 0x00, SCSI_CONTROL_MASK],
    enabled := some EnabledTag.pr }

def tcm_opcode_release10 : Descr :=
  { opcode := RELEASE_10, cdb_size := 10,
    usage_bits := [RELEASE_10, 0x00, 0x00, 0x00, 0x00, 0x00, 0x00, 0xff,
                   0xff, SCSI_CONTROL_MASK],
    enabled := some EnabledTag.pr }

def tcm_opcode_reserve : Descr :=
  { opcode := RESERVE, cdb_size := 6,
    usage_bits := [RESERVE, 0x00, 0x00, 0x00, 0x00, SCSI_CONTROL_MASK],
    enabled := some EnabledTag.pr }

def tcm_opcode_reserve10 : Descr :=
  { opcode := RESERVE_10, cdb_size := 10,
    usage_bits := [RESERVE_10, 0x00, 0x00, 0x00, 0x00, 0x00, 0x00, 0xff,
                   0xff, SCSI_CONTROL_MASK],
    enabled := some EnabledTag.pr }

def tcm_opcode_request_sense : Descr :=
  { opcode := REQUEST_SENSE, cdb_size := 6,
    usage_bits := [REQUEST_SENSE, 0x00, 0x00, 0x00, 0xff, SCSI_CONTROL_MASK] }

def tcm_opcode_inquiry : Descr :=
  { opcode := INQUIRY, cdb_size := 6,
    usage_bits := [INQUIRY, 0x01, 0xff, 0xff, 0xff, SCSI_CONTROL_MASK] }

def tcm_opcode_extended_copy_lid1 : Descr :=
  { opcode := EXTENDED_COPY, serv_action_valid := true, cdb_size := 16,
    usage_bits := [EXTENDED_COPY, 0x00, 0x00, 0x00, 0x00, 0x00, 0x00, 0x00,
                   0x00, 0x00, 0xff, 0xff, 0xff, 0xff, 0x00, SCSI_CONTROL_MASK],
    enabled := some EnabledTag.threePc }

def tcm_opcode_rcv_copy_res_op_params : Descr :=
  { opcode := RECEIVE_COPY_RESULTS, serv_action_valid := true,
    service_action := RCR_SA_OPERATING_PARAMETERS, cdb_size := 16,
    usage_bits := [RECEIVE_COPY_RESULTS, RCR_SA_OPERATING_PARAMETERS, 0x00, 0x00,
                   0x00, 0x00, 0x00, 0x00, 0x00, 0x00, 0xff, 0xff,
                   0xff, 0xff, 0x00, SCSI_CONTROL_MASK],
    enabled := some EnabledTag.threePc }

def tcm_opcode_report_luns : Descr :=
  { opcode := REPORT_LUNS, cdb_size := 12,
    usage_bits := [REPORT_LUNS, 0x00, 0xff, 0x00, 0x00, 0x00, 0xff, 0xff,
                   0xff, 0xff, 0x00, SCSI_CONTROL_MASK] }

def tcm_opcode_test_unit_ready : Descr :=
  { opcode := TEST_UNIT_READY, cdb_size := 6,
    usage_bits := [TEST_UNIT_READY, 0x00, 0x00, 0x00, 0x00, SCSI_CONTROL_MASK] }

def tcm_opcode_report_target_pgs : Descr :=
  { opcode := MAINTENANCE_IN, serv_action_valid := true,
    service_action := MI_REPORT_TARGET_PGS, cdb_size := 12,
    usage_bits := [MAINTENANCE_IN, 0xE0 ||| MI_REPORT_TARGET_PGS, 0x00, 0x00,
                   0x00, 0x00, 0xff, 0xff, 0xff, 0xff, 0x00, SCSI_CONTROL_MASK] }

def tcm_opcode_report_supp_opcodes : Descr :=
  { opcode := MAINTENANCE_IN, serv_action_valid := true,
    service_action := MI_REPORT_SUPPORTED_OPERATION_CODES, cdb_size := 12,
    usage_bits := [MAINTENANCE_IN, MI_REPORT_SUPPORTED_OPERATION_CODES,
                   0x87, 0xff, 0xff, 0xff, 0xff, 0xff,
                   0xff, 0xff, 0x00, SCSI_CONTROL_MASK],
    enabled := some EnabledTag.rsoc }

def tcm_opcode_set_tpg : Descr :=
  { opcode := MAINTENANCE_OUT, serv_action_valid := true,
    service_action := MO_SET_TARGET_PGS, cdb_size := 12,
    usage_bits := [MAINTENANCE_OUT, MO_SET_TARGET_PGS, 0x00, 0x00,
                   0x00, 0x00, 0xff, 0xff, 0xff, 0xff, 0x00, SCSI_CONTROL_MASK],
    enabled := some EnabledTag.setTpg }

/-- tcm_supported_opcodes[], in table order. -/
def tcm_supported_opcodes : List Descr :=
  [tcm_opcode_read6, tcm_opcode_read10, tcm_opcode_read12, tcm_opcode_read16,
   tcm_opcode_write6, tcm_opcode_write10, tcm_opcode_write_verify10,
   tcm_opcode_write12, tcm_opcode_write16, tcm_opcode_write_verify16,
   tcm_opcode_write_same32, tcm_opcode_compare_write, tcm_opcode_read_capacity,
   tcm_opcode_read_capacity16, tcm_opcode_read_report_refferals,
   tcm_opcode_sync_cache, tcm_opcode_sync_cache16, tcm_opcode_unmap,
   tcm_opcode_write_same, tcm_opcode_write_same16, tcm_opcode_verify,
   tcm_opcode_verify16, tcm_opcode_start_stop, tcm_opcode_mode_select,
   tcm_opcode_mode_select10, tcm_opcode_mode_sense, tcm_opcode_mode_sense10,
   tcm_opcode_pri_read_keys, tcm_opcode_pri_read_resrv, tcm_opcode_pri_read_caps,
   tcm_opcode_pri_read_full_status, tcm_opcode_pro_register,
   tcm_opcode_pro_reserve, tcm_opcode_pro_release, tcm_opcode_pro_clear,
   tcm_opcode_pro_preempt, tcm_opcode_pro_preempt_abort,
   tcm_opcode_pro_reg_ign_exist, tcm_opcode_pro_register_move,
   tcm_opcode_release, tcm_opcode_release10, tcm_opcode_reserve,
   tcm_opcode_reserve10, tcm_opcode_request_sense, tcm_opcode_inquiry,
   tcm_opcode_extended_copy_lid1, tcm_opcode_rcv_copy_res_op_params,
   tcm_opcode_report_luns, tcm_opcode_test_unit_ready,
   tcm_opcode_report_target_pgs, tcm_opcode_report_supp_opcodes,
   tcm_opcode_set_tpg]

/-! ## REPORT SUPPORTED OPERATION CODES emulation -/

/-- spc_rsoc_encode_command_timeouts_descriptor: empty when ctdp = 0, else
    the 12-byte timeouts descriptor (written into zeroed storage). -/
def rsocTimeoutsBytes (ctdp : Nat) (d : Descr) : List Nat :=
  if ctdp = 0 then []
  else [0, 0x0a, 0, d.specific_timeout % 256] ++
    be32List d.nominal_timeout ++ be32List d.recommended_timeout

/-- spc_rsoc_encode_command_descriptor: one all-commands entry, written into
    a zeroed region (bytes 1 and 4 are the untouched zero fill). -/
def spc_rsoc_encode_command_descriptor (ctdp : Nat) (d : Descr) : List Nat :=
  [d.opcode % 256, 0] ++ be16List d.service_action ++
    [0, ((ctdp <<< 1) ||| (if d.serv_action_valid then 1 else 0)) % 256] ++
    be16List d.cdb_size ++ rsocTimeoutsBytes ctdp d

/-- spc_rsoc_encode_one_command_descriptor (byte 0 is the zero fill). -/
def spc_rsoc_encode_one_command_descriptor (s : DevState) (ctdp : Nat)
    (od : Option Descr) : List Nat :=
  match od with
  | none => [0, ((ctdp <<< 7) ||| SCSI_SUPPORT_NOT_SUPPORTED) % 256]
  | some d =>
    let usage := (d.usage_bits.take d.cdb_size).map (· % 256)
    let usage := match d.update_usage_bits with
      | none => usage
      | some t => applyUsageUpdate t usage s
    [0, ((ctdp <<< 7) ||| SCSI_SUPPORT_FULL) % 256] ++ be16List d.cdb_size ++
      usage ++ rsocTimeoutsBytes ctdp d

/-- The descriptor-scan loop of spc_rsoc_get_descr, over the remaining table
    suffix.  Returns the matched descriptor (TCM_NO_SENSE with *opcode set),
    `none` (TCM_NO_SENSE with *opcode NULL) or an error. -/
def rsocGetDescrLoop (s : DevState) (opts reqOp reqSa : Nat) :
    List Descr → Except Sense (Option Descr)
  | [] => Except.ok none
  | d :: rest =>
    if d.opcode ≠ reqOp then rsocGetDescrLoop s opts reqOp reqSa rest
    else if opts = 1 then
      -- an opcode implementing service actions is rejected outright
      if d.serv_action_valid then Except.error Sense.invalidCdbField
      else if descrEnabled d s then Except.ok (some d)
      else rsocGetDescrLoop s opts reqOp reqSa rest
    else if opts = 2 then
      if d.serv_action_valid ∧ d.service_action = reqSa then
        if descrEnabled d s then Except.ok (some d)
        else rsocGetDescrLoop s opts reqOp reqSa rest
      else if ¬d.serv_action_valid then Except.error Sense.invalidCdbField
      else rsocGetDescrLoop s opts reqOp reqSa rest
    else if opts = 3 then
      if d.service_action = reqSa then
        if descrEnabled d s then Except.ok (some d)
        else rsocGetDescrLoop s opts reqOp reqSa rest
      else rsocGetDescrLoop s opts reqOp reqSa rest
    else rsocGetDescrLoop s opts reqOp reqSa rest

/-- spc_rsoc_get_descr.  `opts = cdb[2] & 0x3` can never exceed 3, so the
    `opts > 3` rejection below is unreachable (kept as in the source). -/
def spc_rsoc_get_descr (s : DevState) (cdb : List Nat) :
    Except Sense (Option Descr) :=
  let opts := getByte cdb 2 &&& 0x3
  let reqOp := getByte cdb 3
  let reqSa := (getByte cdb 4) <<< 8 ||| getByte cdb 5
  if opts > 3 then Except.error Sense.invalidCdbField
  else rsocGetDescrLoop s opts reqOp reqSa tcm_supported_opcodes

/-- The all-commands enumeration loop of spc_emulate_report_supp_op_codes:
    appends each descriptor's encoding, skipping those whose enablement
    predicate rejects the current state. -/
def rsocAllCommandsLoop (s : DevState) (rctd : Nat) : List Descr → List Nat
  | [] => []
  | d :: rest =>
    if descrEnabled d s then
      spc_rsoc_encode_command_descriptor rctd d ++ rsocAllCommandsLoop s rctd rest
    else rsocAllCommandsLoop s rctd rest

/-- spc_emulate_report_supp_op_codes: the kzalloc'd response and
    response_length (the copy into the data buffer truncates to
    min(response_length, data_length); completion is GOOD on ok). -/
def spc_emulate_report_supp_op_codes (s : DevState) (cdb : List Nat) :
    Except Sense (List Nat × Nat) :=
  if ¬s.emulate_rsoc then Except.error Sense.unsupportedScsiOpcode
  else
    let rctd := (getByte cdb 2 >>> 7) &&& 0x1
    let opts := getByte cdb 2 &&& 0x3
    if opts = 0 then
      let payload := rsocAllCommandsLoop s rctd tcm_supported_opcodes
      let buf := putBe32 ([0, 0, 0, 0] ++ payload) 0 payload.length
      Except.ok (buf, 4 + payload.length)
    else
      match spc_rsoc_get_descr s cdb with
      | Except.error e => Except.error e
      | Except.ok od =>
        let buf := spc_rsoc_encode_one_command_descriptor s rctd od
        Except.ok (buf, buf.length)

/-! ## Generic buffer lemmas -/

theorem length_setByte (b : List Nat) (i v : Nat) :
    (setByte b i v).length = b.length := List.length_set b i (v % 256)

theorem getD_setByte_self (b : List Nat) (i v : Nat) (h : i < b.length) :
    (setByte b i v).getD i 0 = v % 256 := by
  show (b.set i (v % 256)).getD i 0 = v % 256
  rw [List.getD_eq_getElem _ 0 (by simpa using h)]
  exact List.getElem_set_self _

theorem getD_setByte_ne (b : List Nat) (i j v : Nat) (h : i ≠ j) :
    (setByte b i v).getD j 0 = b.getD j 0 := by
  show (b.set i (v % 256)).getD j 0 = b.getD j 0
  rw [List.getD_eq_getElem?_getD, List.getD_eq_getElem?_getD,
    List.getElem?_set_ne h]

theorem length_writeBytes : ∀ (l b : List Nat) (off : Nat),
    (writeBytes b off l).length = b.length
  | [], _, _ => rfl
  | v :: vs, b, off => by
    rw [writeBytes, length_writeBytes vs (setByte b off v) (off + 1), length_setByte]

theorem getD_writeBytes_lt : ∀ (l b : List Nat) (off j : Nat), j < off →
    (writeBytes b off l).getD j 0 = b.getD j 0
  | [], _, _, _, _ => rfl
  | v :: vs, b, off, j, h => by
    rw [writeBytes,
      getD_writeBytes_lt vs (setByte b off v) (off + 1) j (Nat.lt_succ_of_lt h)]
    exact getD_setByte_ne b off j v (Nat.ne_of_gt h)

theorem getD_writeBytes_ge : ∀ (l b : List Nat) (off j : Nat), off + l.length ≤ j →
    (writeBytes b off l).getD j 0 = b.getD j 0
  | [], _, _, _, _ => rfl
  | v :: vs, b, off, j, h => by
    rw [List.length_cons] at h
    rw [writeBytes,
      getD_writeBytes_ge vs (setByte b off v) (off + 1) j (by omega)]
    exact getD_setByte_ne b off j v (by omega)

theorem getD_writeBytes_in : ∀ (l b : List Nat) (off j : Nat), j < l.length →
    off + j < b.length →
    (writeBytes b off l).getD (off + j) 0 = l.getD j 0 % 256
  | [], _, _, _, hj, _ => absurd hj (by simp)
  | v :: vs, b, off, 0, _, hb => by
    rw [writeBytes, getD_writeBytes_lt vs _ (off + 1) (off + 0) (by omega)]
    simpa using getD_setByte_self b off v (by simpa using hb)
  | v :: vs, b, off, j + 1, hj, hb => by
    have h1 : off + (j + 1) = (off + 1) + j := by omega
    rw [writeBytes, h1,
      getD_writeBytes_in vs (setByte b off v) (off + 1) j (by simpa using hj)
        (by rw [length_setByte]; omega)]
    rfl

/-- Extract a fully determined slice of a buffer from pointwise facts. -/
theorem slice_eq {b t : List Nat} {a : Nat} (hb : a + t.length ≤ b.length)
    (h : ∀ j, j < t.length → b.getD (a + j) 0 = t.getD j 0) :
    (b.drop a).take t.length = t := by
  apply List.ext_getElem
  · simp
    omega
  · intro n h1 h2
    have hn : a + n < b.length := by
      simp at h1
      omega
    have h3 := h n h2
    rw [List.getD_eq_getElem _ 0 hn, List.getD_eq_getElem _ 0 h2] at h3
    rw [List.getElem_take, List.getElem_drop]
    exact h3

theorem length_orByte (b : List Nat) (i v : Nat) :
    (orByte b i v).length = b.length := length_setByte ..

theorem length_putBe16 (b : List Nat) (i v : Nat) :
    (putBe16 b i v).length = b.length := by
  rw [putBe16, length_setByte, length_setByte]

theorem length_putBe32 (b : List Nat) (i v : Nat) :
    (putBe32 b i v).length = b.length := by
  rw [putBe32, length_setByte, length_setByte, length_setByte, length_setByte]

theorem length_putBe64 (b : List Nat) (i v : Nat) :
    (putBe64 b i v).length = b.length := by
  rw [putBe64, length_putBe32, length_putBe32]

theorem getD_orByte_ne (b : List Nat) (i j v : Nat) (h : i ≠ j) :
    (orByte b i v).getD j 0 = b.getD j 0 := getD_setByte_ne b i j _ h

theorem getD_putBe16_ne (b : List Nat) (i j v : Nat) (h : j < i ∨ i + 2 ≤ j) :
    (putBe16 b i v).getD j 0 = b.getD j 0 := by
  rw [putBe16, getD_setByte_ne _ _ _ _ (by omega), getD_setByte_ne _ _ _ _ (by omega)]

theorem putBe16_eq_writeBytes (b : List Nat) (i v : Nat) :
    putBe16 b i v = writeBytes b i [v / 256, v] := rfl

theorem putBe32_eq_writeBytes (b : List Nat) (i v : Nat) :
    putBe32 b i v = writeBytes b i [v / 16777216, v / 65536, v / 256, v] := rfl

theorem getD_replicate_lt (n a j : Nat) (h : j < n) :
    (List.replicate n a).getD j 0 = a := by
  rw [List.getD_eq_getElem _ 0 (by simpa using h)]
  exact List.getElem_replicate _ _

theorem getD_take_lt (l : List Nat) (n j : Nat) (h : j < n) (hl : j < l.length) :
    (l.take n).getD j 0 = l.getD j 0 := by
  rw [List.getD_eq_getElem _ 0 (by simp; omega),
    List.getD_eq_getElem _ 0 hl, List.getElem_take]

theorem getD_replicate_zero (n j : Nat) : (List.replicate n 0).getD j 0 = 0 := by
  rw [List.getD_eq_getElem?_getD]
  rcases Nat.lt_or_ge j n with h | h
  · rw [List.getElem?_eq_getElem (by simpa using h)]
    simp
  · rw [List.getElem?_eq_none (by simpa using h)]
    rfl

/-! ## Claim theorems -/

/-- C10: a MODE SELECT (6 or 10) whose transfer length is zero completes
    immediately with GOOD status and no error: the PF bit is not checked, no
    page lookup happens, and no parameter-list error can arise. -/
theorem modeselect_zero_transfer_good (s : DevState) (cdb : List Nat)
    (_h : getByte cdb 0 = MODE_SELECT ∨ getByte cdb 0 = MODE_SELECT_10) :
    spc_emulate_modeselect s cdb [] = Except.ok () := by
  simp [spc_emulate_modeselect]

/-- Witness for C10: a MODE SELECT(6) CDB with PF clear and a garbage page
    code still completes GOOD when the transfer length is zero. -/
theorem modeselect_zero_transfer_good_witness :
    (getByte [0x15, 0x00, 0x3f, 0, 0, 0] 0 = MODE_SELECT ∨
      getByte [0x15, 0x00, 0x3f, 0, 0, 0] 0 = MODE_SELECT_10) ∧
    spc_emulate_modeselect {} [0x15, 0x00, 0x3f, 0, 0, 0] [] = Except.ok () :=
  ⟨Or.inl (by decide),
   modeselect_zero_transfer_good {} [0x15, 0x00, 0x3f, 0, 0, 0] (Or.inl (by decide))⟩

/-- C3: every CDB the dispatcher accepts gets its expected size from the
    documented fixed offset: byte 4 for MODE SENSE/SELECT(6), big-endian
    16-bit at bytes 7-8 for MODE SENSE/SELECT(10), big-endian 32-bit at
    bytes 5-8 for PERSISTENT RESERVE OUT. -/
theorem spc_parse_cdb_expected_sizes (s : DevState) (cdb : List Nat)
    (dlen : Nat) (r : ParseResult) (h : spc_parse_cdb s cdb dlen = Except.ok r) :
    (getByte cdb 0 = MODE_SENSE ∨ getByte cdb 0 = MODE_SELECT →
      r.size = getByte cdb 4) ∧
    (getByte cdb 0 = MODE_SENSE_10 ∨ getByte cdb 0 = MODE_SELECT_10 →
      r.size = readBe16 cdb 7) ∧
    (getByte cdb 0 = PERSISTENT_RESERVE_OUT → r.size = readBe32 cdb 5) := by
  refine ⟨fun hop => ?_, fun hop => ?_, fun hop => ?_⟩
  · rcases hop with hop | hop <;>
      · simp [spc_parse_cdb, hop] at h
        subst h
        rfl
  · rcases hop with hop | hop <;>
      · simp [spc_parse_cdb, hop] at h
        subst h
        rfl
  · by_cases hpr : s.emulate_pr
    · simp [spc_parse_cdb, hop, hpr] at h
      subst h
      rfl
    · simp [spc_parse_cdb, hop, hpr] at h

/-- Witness for C3: a PERSISTENT RESERVE OUT CDB on a PR-emulating device
    is accepted with the 32-bit length at bytes 5-8. -/
theorem spc_parse_cdb_expected_sizes_witness :
    spc_parse_cdb { emulate_pr := true }
        [0x5f, 0x01, 0, 0, 0, 0x12, 0x34, 0x56, 0x78, 0] 0 =
      Except.ok { size := 0x12345678, handler := some Handler.prOut } ∧
    (0x12345678 : Nat) =
      readBe32 [0x5f, 0x01, 0, 0, 0, 0x12, 0x34, 0x56, 0x78, 0] 5 := by
  constructor
  · decide
  · have h := spc_parse_cdb_expected_sizes { emulate_pr := true }
      [0x5f, 0x01, 0, 0, 0, 0x12, 0x34, 0x56, 0x78, 0] 0
      { size := 0x12345678, handler := some Handler.prOut } (by decide)
    exact (h.2.2 (by decide)).symm

/-- C9: RESERVE(6/10), RELEASE(6/10) and PERSISTENT RESERVE IN/OUT are all
    rejected as unsupported opcodes when PR emulation is off; with PR
    emulation on but delegated to the backend (passthrough PGR), only
    RESERVE/RELEASE are rejected while PR IN/OUT are still routed to their
    handlers. -/
theorem spc_parse_cdb_reservation_gating (s : DevState) (cdb : List Nat)
    (dlen : Nat) :
    (¬s.emulate_pr →
      (getByte cdb 0 = RESERVE ∨ getByte cdb 0 = RESERVE_10 ∨
       getByte cdb 0 = RELEASE ∨ getByte cdb 0 = RELEASE_10 ∨
       getByte cdb 0 = PERSISTENT_RESERVE_IN ∨
       getByte cdb 0 = PERSISTENT_RESERVE_OUT) →
      spc_parse_cdb s cdb dlen = Except.error Sense.unsupportedScsiOpcode) ∧
    (s.emulate_pr → s.passthroughPgr →
      ((getByte cdb 0 = RESERVE ∨ getByte cdb 0 = RESERVE_10 ∨
        getByte cdb 0 = RELEASE ∨ getByte cdb 0 = RELEASE_10) →
        spc_parse_cdb s cdb dlen = Except.error Sense.unsupportedScsiOpcode) ∧
      (getByte cdb 0 = PERSISTENT_RESERVE_IN →
        spc_parse_cdb s cdb dlen =
          Except.ok { size := readBe16 cdb 7, handler := some Handler.prIn }) ∧
      (getByte cdb 0 = PERSISTENT_RESERVE_OUT →
        spc_parse_cdb s cdb dlen =
          Except.ok { size := readBe32 cdb 5, handler := some Handler.prOut })) := by
  refine ⟨fun hpr hop => ?_, fun hpr hpt => ⟨fun hop => ?_, fun hop => ?_, fun hop => ?_⟩⟩
  · rcases hop with hop | hop | hop | hop | hop | hop <;>
      simp [spc_parse_cdb, hop, hpr]
  · rcases hop with hop | hop | hop | hop <;>
      simp [spc_parse_cdb, hop, hpr, hpt]
  · simp [spc_parse_cdb, hop, hpr, hpt]
  · simp [spc_parse_cdb, hop, hpr, hpt]

/-- Witness for C9: with PR emulation off, RESERVE is rejected; with PR on
    and passthrough PGR, RESERVE is rejected while PERSISTENT RESERVE IN is
    accepted and routed. -/
theorem spc_parse_cdb_reservation_gating_witness :
    spc_parse_cdb { emulate_pr := false } [0x16, 0, 0, 0, 0, 0] 0 =
      Except.error Sense.unsupportedScsiOpcode ∧
    spc_parse_cdb { emulate_pr := true, passthroughPgr := true }
        [0x16, 0, 0, 0, 0, 0] 0 = Except.error Sense.unsupportedScsiOpcode ∧
    spc_parse_cdb { emulate_pr := true, passthroughPgr := true }
        [0x5e, 0x01, 0, 0, 0, 0, 0, 0x01, 0x02, 0] 0 =
      Except.ok { size := 0x0102, handler := some Handler.prIn } := by
  refine ⟨?_, ?_, ?_⟩
  · exact (spc_parse_cdb_reservation_gating { emulate_pr := false }
      [0x16, 0, 0, 0, 0, 0] 0).1 (by decide) (Or.inl (by decide))
  · exact ((spc_parse_cdb_reservation_gating
      { emulate_pr := true, passthroughPgr := true }
      [0x16, 0, 0, 0, 0, 0] 0).2 (by decide) (by decide)).1 (Or.inl (by decide))
  · exact ((spc_parse_cdb_reservation_gating
      { emulate_pr := true, passthroughPgr := true }
      [0x5e, 0x01, 0, 0, 0, 0, 0, 0x01, 0x02, 0] 0).2 (by decide) (by decide)).2.1
      (by decide)

/-- spc_fill_alua_data only writes byte 5. -/
theorem getD_fill_alua_ne (s : DevState) (b : List Nat) (j : Nat) (h : j ≠ 5) :
    (spc_fill_alua_data s b).getD j 0 = b.getD j 0 := by
  unfold spc_fill_alua_data
  cases s.tgPtGp with
  | none => exact getD_setByte_ne _ _ _ _ (by omega)
  | some gp =>
    rw [getD_orByte_ne _ _ _ _ (by omega), getD_setByte_ne _ _ _ _ (by omega)]

theorem length_fill_alua (s : DevState) (b : List Nat) :
    (spc_fill_alua_data s b).length = b.length := by
  unfold spc_fill_alua_data
  cases s.tgPtGp with
  | none => exact length_setByte ..
  | some gp => rw [length_orByte, length_setByte]

/-- The response buffer the standard-INQUIRY path of spc_emulate_inquiry
    builds: the kzalloc'd SE_INQUIRY_BUF with the device type at byte 0,
    filled by spc_emulate_inquiry_std. -/
def inquiryStdResponse (s : DevState) : List Nat :=
  spc_emulate_inquiry_std s (setByte (List.replicate SE_INQUIRY_BUF 0) 0 s.deviceType)

/-- C2 (code bug evaluation): a REPORT SUPPORTED OPERATION CODES CDB whose
    3-bit REPORTING OPTIONS field holds 4 (cdb[2] = 0x04) is NOT rejected:
    `opts = cdb[2] & 0x3` masks it to 0, so the command completes GOOD with
    the all-commands enumeration and the dead `opts > 3` check never fires. -/
theorem rsoc_reporting_options_4_not_rejected :
    (spc_emulate_report_supp_op_codes { emulate_rsoc := true }
      [0xa3, 0x0c, 0x04, 0, 0, 0, 0, 0, 0, 0, 0, 0]).isOk = true ∧
    spc_emulate_report_supp_op_codes { emulate_rsoc := true }
        [0xa3, 0x0c, 0x04, 0, 0, 0, 0, 0, 0, 0, 0, 0] ≠
      Except.error Sense.invalidCdbField := by
  constructor
  · decide
  · decide

set_option maxRecDepth 8192 in
/-- C7: the standard INQUIRY response always carries additional length 91 at
    byte 4, and the vendor / model / revision fields occupy exactly 8 / 16 /
    4 bytes at offsets 8 / 16 / 32, holding the attribute string truncated to
    the field width and right-padded with ASCII spaces (0x20). -/
theorem inquiry_std_layout (s : DevState)
    (hv : ∀ c ∈ s.vendor, c < 256) (hm : ∀ c ∈ s.model, c < 256)
    (hr : ∀ c ∈ s.revision, c < 256) :
    getByte (inquiryStdResponse s) 4 = 91 ∧
    ((inquiryStdResponse s).drop 8).take 8 =
      s.vendor.take 8 ++ List.replicate (8 - min s.vendor.length 8) 0x20 ∧
    ((inquiryStdResponse s).drop 16).take 16 =
      s.model.take 16 ++ List.replicate (16 - min s.model.length 16) 0x20 ∧
    ((inquiryStdResponse s).drop 32).take 4 =
      s.revision.take 4 ++ List.replicate (4 - min s.revision.length 4) 0x20 := by
  have hv8 : (s.vendor.take (min s.vendor.length 8)).length =
      min s.vendor.length 8 := by simp
  have hm16 : (s.model.take (min s.model.length 16)).length =
      min s.model.length 16 := by simp
  have hr4 : (s.revision.take (min s.revision.length 4)).length =
      min s.revision.length 4 := by simp
  refine ⟨?_, ?_, ?_, ?_⟩
  · show (inquiryStdResponse s).getD 4 0 % 256 = 91
    simp only [inquiryStdResponse, spc_emulate_inquiry_std, strnlen,
          SE_INQUIRY_BUF, INQUIRY_VENDOR_LEN, INQUIRY_MODEL_LEN, INQUIRY_REVISION_LEN]
    rw [getD_setByte_self _ _ _ (by
      simp [apply_ite List.length, length_setByte, length_orByte, length_putBe16,
        length_writeBytes, length_fill_alua, SE_INQUIRY_BUF])]
  · have ht : (s.vendor.take 8 ++
        List.replicate (8 - min s.vendor.length 8) 0x20).length = 8 := by
      simp
      omega
    have hsl := slice_eq (b := inquiryStdResponse s)
      (t := s.vendor.take 8 ++ List.replicate (8 - min s.vendor.length 8) 0x20)
      (a := 8)
      (by
        rw [ht]
        have : (inquiryStdResponse s).length = 1024 := by
          simp [inquiryStdResponse, spc_emulate_inquiry_std,
            apply_ite List.length, length_setByte, length_orByte, length_putBe16,
            length_writeBytes, length_fill_alua, SE_INQUIRY_BUF]
        omega)
      (by
        intro j hj
        have hj8 : j < 8 := ht ▸ hj
        simp only [inquiryStdResponse, spc_emulate_inquiry_std, strnlen,
          SE_INQUIRY_BUF, INQUIRY_VENDOR_LEN, INQUIRY_MODEL_LEN, INQUIRY_REVISION_LEN]
        by_cases hcase : j < min s.vendor.length 8
        · simp (disch := omega) only [getD_setByte_ne, getD_orByte_ne,
            getD_putBe16_ne, getD_fill_alua_ne,
            apply_ite (fun l : List Nat => l.getD (8 + j) 0), ite_self,
            getD_writeBytes_lt, getD_writeBytes_ge]
          rw [getD_writeBytes_in _ _ 8 j (by omega) (by
            simp [apply_ite List.length, length_setByte, length_orByte,
              length_putBe16, length_writeBytes, length_fill_alua, SE_INQUIRY_BUF]
            omega)]
          rw [getD_take_lt _ _ _ (by omega) (by omega)]
          rw [Nat.mod_eq_of_lt (hv _ (by
            rw [List.getD_eq_getElem _ 0 (by omega)]
            exact List.getElem_mem _))]
          rw [List.getD_append _ _ _ _ (by simp; omega),
            getD_take_lt _ _ _ (by omega) (by omega)]
        · simp (disch := omega) only [getD_setByte_ne, getD_orByte_ne,
            getD_putBe16_ne, getD_fill_alua_ne,
            apply_ite (fun l : List Nat => l.getD (8 + j) 0), ite_self,
            getD_writeBytes_lt, getD_writeBytes_ge]
          rw [getD_writeBytes_in _ _ 8 j (by simp; omega) (by
            simp [apply_ite List.length, length_setByte, length_orByte,
              length_putBe16, length_writeBytes, length_fill_alua, SE_INQUIRY_BUF]
            omega)]
          rw [getD_replicate_lt _ _ _ (by omega)]
          rw [List.getD_append_right _ _ _ _ (by simp; omega),
            getD_replicate_lt _ _ _ (by simp; omega)]
        )
    rw [ht] at hsl
    exact hsl
  · have ht : (s.model.take 16 ++
        List.replicate (16 - min s.model.length 16) 0x20).length = 16 := by
      simp
      omega
    have hsl := slice_eq (b := inquiryStdResponse s)
      (t := s.model.take 16 ++ List.replicate (16 - min s.model.length 16) 0x20)
      (a := 16)
      (by
        rw [ht]
        have : (inquiryStdResponse s).length = 1024 := by
          simp [inquiryStdResponse, spc_emulate_inquiry_std,
            apply_ite List.length, length_setByte, length_orByte, length_putBe16,
            length_writeBytes, length_fill_alua, SE_INQUIRY_BUF]
        omega)
      (by
        intro j hj
        have hj16 : j < 16 := ht ▸ hj
        simp only [inquiryStdResponse, spc_emulate_inquiry_std, strnlen,
          SE_INQUIRY_BUF, INQUIRY_VENDOR_LEN, INQUIRY_MODEL_LEN, INQUIRY_REVISION_LEN]
        by_cases hcase : j < min s.model.length 16
        · simp (disch := omega) only [getD_setByte_ne, getD_orByte_ne,
            getD_putBe16_ne, getD_fill_alua_ne,
            apply_ite (fun l : List Nat => l.getD (16 + j) 0), ite_self,
            getD_writeBytes_lt, getD_writeBytes_ge]
          rw [getD_writeBytes_in _ _ 16 j (by omega) (by
            simp [apply_ite List.length, length_setByte, length_orByte,
              length_putBe16, length_writeBytes, length_fill_alua, SE_INQUIRY_BUF]
            omega)]
          rw [getD_take_lt _ _ _ (by omega) (by omega)]
          rw [Nat.mod_eq_of_lt (hm _ (by
            rw [List.getD_eq_getElem _ 0 (by omega)]
            exact List.getElem_mem _))]
          rw [List.getD_append _ _ _ _ (by simp; omega),
            getD_take_lt _ _ _ (by omega) (by omega)]
        · simp (disch := omega) only [getD_setByte_ne, getD_orByte_ne,
            getD_putBe16_ne, getD_fill_alua_ne,
            apply_ite (fun l : List Nat => l.getD (16 + j) 0), ite_self,
            getD_writeBytes_lt, getD_writeBytes_ge]
          have h8j : (16 : Nat) + j = 8 + (8 + j) := by omega
          rw [h8j, getD_writeBytes_in _ _ 8 (8 + j) (by simp; omega) (by
            simp [apply_ite List.length, length_setByte, length_orByte,
              length_putBe16, length_writeBytes, length_fill_alua, SE_INQUIRY_BUF]
            omega)]
          rw [getD_replicate_lt _ _ _ (by omega)]
          rw [List.getD_append_right _ _ _ _ (by simp; omega),
            getD_replicate_lt _ _ _ (by simp; omega)]
        )
    rw [ht] at hsl
    exact hsl
  · have ht : (s.revision.take 4 ++
        List.replicate (4 - min s.revision.length 4) 0x20).length = 4 := by
      simp
      omega
    have hsl := slice_eq (b := inquiryStdResponse s)
      (t := s.revision.take 4 ++
        List.replicate (4 - min s.revision.length 4) 0x20)
      (a := 32)
      (by
        rw [ht]
        have : (inquiryStdResponse s).length = 1024 := by
          simp [inquiryStdResponse, spc_emulate_inquiry_std,
            apply_ite List.length, length_setByte, length_orByte, length_putBe16,
            length_writeBytes, length_fill_alua, SE_INQUIRY_BUF]
        omega)
      (by
        intro j hj
        have hj4 : j < 4 := ht ▸ hj
        simp only [inquiryStdResponse, spc_emulate_inquiry_std, strnlen,
          SE_INQUIRY_BUF, INQUIRY_VENDOR_LEN, INQUIRY_MODEL_LEN, INQUIRY_REVISION_LEN]
        by_cases hcase : j < min s.revision.length 4
        · simp (disch := omega) only [getD_setByte_ne, getD_orByte_ne,
            getD_putBe16_ne, getD_fill_alua_ne,
            apply_ite (fun l : List Nat => l.getD (32 + j) 0), ite_self,
            getD_writeBytes_lt, getD_writeBytes_ge]
          rw [getD_writeBytes_in _ _ 32 j (by omega) (by
            simp [apply_ite List.length, length_setByte, length_orByte,
              length_putBe16, length_writeBytes, length_fill_alua, SE_INQUIRY_BUF]
            omega)]
          rw [getD_take_lt _ _ _ (by omega) (by omega)]
          rw [Nat.mod_eq_of_lt (hr _ (by
            rw [List.getD_eq_getElem _ 0 (by omega)]
            exact List.getElem_mem _))]
          rw [List.getD_append _ _ _ _ (by simp; omega),
            getD_take_lt _ _ _ (by omega) (by omega)]
        · simp (disch := omega) only [getD_setByte_ne, getD_orByte_ne,
            getD_putBe16_ne, getD_fill_alua_ne,
            apply_ite (fun l : List Nat => l.getD (32 + j) 0), ite_self,
            getD_writeBytes_lt, getD_writeBytes_ge]
          have h8j : (32 : Nat) + j = 8 + (24 + j) := by omega
          rw [h8j, getD_writeBytes_in _ _ 8 (24 + j) (by simp; omega) (by
            simp [apply_ite List.length, length_setByte, length_orByte,
              length_putBe16, length_writeBytes, length_fill_alua, SE_INQUIRY_BUF]
            omega)]
          rw [getD_replicate_lt _ _ _ (by omega)]
          rw [List.getD_append_right _ _ _ _ (by simp; omega),
            getD_replicate_lt _ _ _ (by simp; omega)]
        )
    rw [ht] at hsl
    exact hsl

/-- A small concrete device: a 9-byte vendor (truncated to 8), a 1-byte
    model, an empty revision. -/
def devC7 : DevState :=
  { vendor := [0x4c, 0x49, 0x4f, 0x2d, 0x4f, 0x52, 0x47, 0x58, 0x59],
    model := [0x4d], revision := [] }

/-- Witness for C7 at a concrete device. -/
theorem inquiry_std_layout_witness :
    getByte (inquiryStdResponse devC7) 4 = 91 ∧
    ((inquiryStdResponse devC7).drop 8).take 8 =
      devC7.vendor.take 8 ++ List.replicate (8 - min devC7.vendor.length 8) 0x20 ∧
    ((inquiryStdResponse devC7).drop 16).take 16 =
      devC7.model.take 16 ++ List.replicate (16 - min devC7.model.length 16) 0x20 ∧
    ((inquiryStdResponse devC7).drop 32).take 4 =
      devC7.revision.take 4 ++
        List.replicate (4 - min devC7.revision.length 4) 0x20 :=
  inquiry_std_layout devC7 (by decide) (by decide) (by decide)

/-- The buffer spc_emulate_inquiry hands to a VPD generator for page `page`:
    the kzalloc'd SE_INQUIRY_BUF with the device type at byte 0 and the page
    code at byte 1. -/
def inquiryVpdBuf (s : DevState) (page : Nat) : List Nat :=
  setByte (setByte (List.replicate SE_INQUIRY_BUF 0) 0 s.deviceType) 1 page

/-- C8: the supported-VPD-pages payload (bytes 2 onward of page 0x00) is
    non-zero iff a unit serial number is configured; an INQUIRY with EVPD=1
    and page code 0x00 on a device without one succeeds with an effective
    length of 4 and a zero VPD page-length field. -/
theorem evpd00_payload_iff_unit_serial (s : DevState) (cdb : List Nat)
    (h1 : getByte cdb 1 &&& 0x1 = 1) (h2 : getByte cdb 2 = 0) :
    ((∃ i, 2 ≤ i ∧ getByte (spc_emulate_evpd_00 s (inquiryVpdBuf s 0)) i ≠ 0) ↔
      s.hasUnitSerial) ∧
    (¬s.hasUnitSerial →
      spc_emulate_inquiry s cdb =
        Except.ok (spc_emulate_evpd_00 s (inquiryVpdBuf s 0), 4) ∧
      readBe16 (spc_emulate_evpd_00 s (inquiryVpdBuf s 0)) 2 = 0) := by
  have hzero : ∀ i, 2 ≤ i → getByte (inquiryVpdBuf s 0) i = 0 := by
    intro i hi
    show (inquiryVpdBuf s 0).getD i 0 % 256 = 0
    rw [inquiryVpdBuf, getD_setByte_ne _ _ _ _ (by omega),
      getD_setByte_ne _ _ _ _ (by omega), getD_replicate_zero]
  constructor
  · constructor
    · intro ⟨i, hi, hne⟩
      by_contra hns
      apply hne
      rw [spc_emulate_evpd_00]
      simp only [hns]
      rw [if_neg (by simp [hns])]
      exact hzero i hi
    · intro hs
      refine ⟨3, by omega, ?_⟩
      rw [spc_emulate_evpd_00, if_pos (by simp [hs])]
      show (writeBytes _ 4 _).getD 3 0 % 256 ≠ 0
      rw [getD_writeBytes_lt _ _ _ _ (by omega),
        getD_setByte_self _ _ _ (by
          rw [inquiryVpdBuf, length_setByte, length_setByte, List.length_replicate]
          decide)]
      decide
  · intro hns
    have hres : spc_emulate_inquiry s cdb =
        Except.ok (spc_emulate_evpd_00 s (inquiryVpdBuf s 0),
          readBe16 (spc_emulate_evpd_00 s (inquiryVpdBuf s 0)) 2 + 4) := by
      rw [spc_emulate_inquiry]
      rw [if_neg (by omega)]
      rw [h2]
      rw [evpd_handlers, inquiryEvpdLoop, if_pos rfl]
      rfl
    have hlen : readBe16 (spc_emulate_evpd_00 s (inquiryVpdBuf s 0)) 2 = 0 := by
      rw [spc_emulate_evpd_00, if_neg (by simp [hns]), readBe16,
        hzero 2 (by omega), hzero 3 (by omega)]
    rw [hres, hlen]
    exact ⟨rfl, rfl⟩

/-- Witness for C8: the CDB `[0x12, 0x01, 0x00, ...]` of the spec example on
    a device with no unit serial configured. -/
theorem evpd00_payload_iff_unit_serial_witness :
    (¬(∃ i, 2 ≤ i ∧
        getByte (spc_emulate_evpd_00 {} (inquiryVpdBuf {} 0)) i ≠ 0) ↔
      ¬({} : DevState).hasUnitSerial) ∧
    spc_emulate_inquiry {} [0x12, 0x01, 0x00, 0, 0xff, 0] =
      Except.ok (spc_emulate_evpd_00 {} (inquiryVpdBuf {} 0), 4) ∧
    readBe16 (spc_emulate_evpd_00 {} (inquiryVpdBuf {} 0)) 2 = 0 := by
  have h := evpd00_payload_iff_unit_serial {} [0x12, 0x01, 0x00, 0, 0xff, 0]
    (by decide) (by decide)
  exact ⟨not_congr h.1, (h.2 (by decide)).1, (h.2 (by decide)).2⟩

theorem length_naaNibbleLoop : ∀ (cs b : List Nat) (limit off : Nat) (next : Bool),
    (naaNibbleLoop limit b cs off next).length = b.length
  | [], _, _, _, _ => rfl
  | c :: rest, b, limit, off, next => by
    rw [naaNibbleLoop]
    split
    · rcases hc : hexToBin c with _ | val <;> simp only [hc]
      · exact length_naaNibbleLoop rest b limit off next
      · split
        · rw [length_naaNibbleLoop rest _ limit (off + 1) false, length_orByte]
        · rw [length_naaNibbleLoop rest _ limit off true, length_setByte]
    · rfl

theorem length_spc_gen_naa (s : DevState) (b : List Nat) (base : Nat) :
    (spc_gen_naa_6h_vendor_specific s b base).length = b.length := by
  rw [spc_gen_naa_6h_vendor_specific, length_naaNibbleLoop, length_setByte,
    length_setByte, length_setByte, length_setByte]

theorem readBe16_putBe16 (b : List Nat) (i v : Nat) (hb : i + 1 < b.length)
    (hv : v < 65536) : readBe16 (putBe16 b i v) i = v := by
  show (putBe16 b i v).getD i 0 % 256 * 256 + (putBe16 b i v).getD (i + 1) 0 % 256 = v
  rw [putBe16, getD_setByte_ne _ _ _ _ (by omega),
    getD_setByte_self _ _ _ (by omega),
    getD_setByte_self _ _ _ (by rw [length_setByte]; omega)]
  omega

/-- C5: after the device-identification VPD generator runs, the big-endian
    page-length it patches back at bytes 2-3 equals the accumulated
    designator byte count, and the running offset where encoding stopped
    equals that patched length plus the 4-byte page header.  The length
    bounds mirror the t10_wwn char-array sizes (model[16+1],
    unit_serial[254]). -/
theorem evpd83_page_length_consistent (s : DevState) (b : List Nat)
    (hb : b.length = SE_INQUIRY_BUF) (hm : s.model.length ≤ 16)
    (hs : s.unit_serial.length ≤ 254) :
    readBe16 (spc_emulate_evpd_83 s b).1 2 = (spc_emulate_evpd_83 s b).2.2 ∧
    (spc_emulate_evpd_83 s b).2.1 = (spc_emulate_evpd_83 s b).2.2 + 4 := by
  cases hser : s.hasUnitSerial <;> cases htg : s.tgPtGp <;> cases hlu : s.luGpId <;>
    · simp only [spc_emulate_evpd_83, hser, htg, hlu, Bool.not_false, Bool.not_true,
        Bool.false_eq_true, Bool.true_eq_false, not_false_eq_true, not_true_eq_false,
        ite_true, ite_false, if_true, if_false]
      constructor
      · refine readBe16_putBe16 _ _ _ ?_ ?_
        · simp only [length_setByte, length_orByte, length_writeBytes,
            length_putBe16, length_spc_gen_naa, hb]
          decide
        · simp only [List.length_append, List.length_cons, List.length_nil, hex4]
          split_ifs <;> omega
      · simp only [List.length_append, List.length_cons, List.length_nil, hex4]
        split_ifs <;> omega

/-- A concrete device exercising every designator of the 0x83 page. -/
def devC5 : DevState :=
  { hasUnitSerial := true, unit_serial := [0x33, 0x34, 0x61, 0x62],
    model := [0x4d, 0x4f, 0x44], vendor := [0x4c],
    fabric_wwn := [0x69, 0x71, 0x6e], tpgt := 1,
    tgPtGp := some { id := 3, accessType := 0x20 }, luGpId := some 7,
    proto_id := 5, rtpi := 2, company_id := 0x123456 }

/-- Witness for C5 at a concrete device and the kzalloc'd buffer. -/
theorem evpd83_page_length_consistent_witness :
    readBe16 (spc_emulate_evpd_83 devC5 (List.replicate SE_INQUIRY_BUF 0)).1 2 =
      (spc_emulate_evpd_83 devC5 (List.replicate SE_INQUIRY_BUF 0)).2.2 ∧
    (spc_emulate_evpd_83 devC5 (List.replicate SE_INQUIRY_BUF 0)).2.1 =
      (spc_emulate_evpd_83 devC5 (List.replicate SE_INQUIRY_BUF 0)).2.2 + 4 :=
  evpd83_page_length_consistent devC5 (List.replicate SE_INQUIRY_BUF 0)
    (by simp) (by decide) (by decide)

/-! ### REPORT LUNS loop lemmas -/

theorem reportLunsLoop_count (dlen : Nat) : ∀ (l buf : List Nat) (c off : Nat),
    (reportLunsLoop dlen l buf c off).2.1 = c + l.length
  | [], _, _, _ => rfl
  | lun :: rest, buf, c, off => by
    rw [reportLunsLoop]
    split
    · rw [reportLunsLoop_count dlen rest buf (c + 1) off, List.length_cons]
      omega
    · rw [reportLunsLoop_count dlen rest _ (c + 1) (off + 8), List.length_cons]
      omega

theorem reportLunsLoop_length (dlen : Nat) : ∀ (l buf : List Nat) (c off : Nat),
    (reportLunsLoop dlen l buf c off).1.length = buf.length
  | [], _, _, _ => rfl
  | lun :: rest, buf, c, off => by
    rw [reportLunsLoop]
    split
    · exact reportLunsLoop_length dlen rest buf (c + 1) off
    · rw [reportLunsLoop_length dlen rest _ (c + 1) (off + 8), length_writeBytes]

theorem reportLunsLoop_getD_lt (dlen : Nat) :
    ∀ (l buf : List Nat) (c off j : Nat), j < off →
    (reportLunsLoop dlen l buf c off).1.getD j 0 = buf.getD j 0
  | [], _, _, _, _, _ => rfl
  | lun :: rest, buf, c, off, j, hj => by
    rw [reportLunsLoop]
    split
    · exact reportLunsLoop_getD_lt dlen rest buf (c + 1) off j hj
    · rw [reportLunsLoop_getD_lt dlen rest _ (c + 1) (off + 8) j (by omega)]
      exact getD_writeBytes_lt _ _ _ _ hj

theorem length_int_to_scsilun (v : Nat) : (int_to_scsilun v).length = 8 := rfl

theorem reportLunsLoop_entry (dlen : Nat) :
    ∀ (l buf : List Nat) (c off i j : Nat), i < l.length → j < 8 →
    off + 8 * i + 8 ≤ dlen → buf.length = dlen →
    (reportLunsLoop dlen l buf c off).1.getD (off + 8 * i + j) 0 =
      (int_to_scsilun (l.getD i 0)).getD j 0 % 256
  | [], _, _, _, _, _, hi, _, _, _ => absurd hi (by simp)
  | lun :: rest, buf, c, off, 0, j, hi, hj, hfit, hb => by
    rw [reportLunsLoop, if_neg (by omega)]
    have hmin : min 8 (dlen - off) = 8 := by omega
    rw [hmin]
    have hidx : off + 8 * 0 + j = off + j := by omega
    rw [hidx, reportLunsLoop_getD_lt dlen rest _ (c + 1) (off + 8) _ (by omega)]
    rw [show (int_to_scsilun lun).take 8 = int_to_scsilun lun from rfl]
    rw [getD_writeBytes_in _ _ off j (by rw [length_int_to_scsilun]; omega)
      (by omega)]
    rw [List.getD_cons_zero]
  | lun :: rest, buf, c, off, i + 1, j, hi, hj, hfit, hb => by
    rw [reportLunsLoop, if_neg (by omega)]
    have hidx : off + 8 * (i + 1) + j = (off + 8) + 8 * i + j := by omega
    rw [hidx, reportLunsLoop_entry dlen rest _ (c + 1) (off + 8) i j
      (by simpa using hi) hj (by omega) (by rw [length_writeBytes]; exact hb)]
    rw [List.getD_cons_succ]

/-- The number of LUN entries visible to the nexus (`none` = no session). -/
def visibleLunCount : Option (List Nat) → Nat
  | none => 0
  | some l => l.length

theorem readBe32_writeBytes_be32List (b : List Nat) (v : Nat)
    (hb : 4 ≤ b.length) (hv : v < 4294967296) :
    readBe32 (writeBytes b 0 (be32List v)) 0 = v := by
  show (writeBytes b 0 (be32List v)).getD 0 0 % 256 * 16777216 +
    (writeBytes b 0 (be32List v)).getD 1 0 % 256 * 65536 +
    (writeBytes b 0 (be32List v)).getD 2 0 % 256 * 256 +
    (writeBytes b 0 (be32List v)).getD 3 0 % 256 = v
  rw [show writeBytes b 0 (be32List v) =
    setByte (setByte (setByte (setByte b 0 (v / 16777216 % 256)) (0 + 1)
      (v / 65536 % 256)) (0 + 1 + 1) (v / 256 % 256)) (0 + 1 + 1 + 1) (v % 256)
    from rfl]
  rw [getD_setByte_ne _ _ _ _ (by omega), getD_setByte_ne _ _ _ _ (by omega),
    getD_setByte_ne _ _ _ _ (by omega), getD_setByte_self _ _ _ (by omega)]
  rw [getD_setByte_ne _ _ _ _ (by omega), getD_setByte_ne _ _ _ _ (by omega),
    getD_setByte_self _ _ _ (by rw [length_setByte]; omega)]
  rw [getD_setByte_ne _ _ _ _ (by omega),
    getD_setByte_self _ _ _ (by rw [length_setByte, length_setByte]; omega)]
  rw [getD_setByte_self _ _ _
    (by rw [length_setByte, length_setByte, length_setByte]; omega)]
  omega

/-- C4: REPORT LUNS writes `8 * count` into the 4-byte LUN-list-length
    header, where `count` is the exact number of visible LUN entries even if
    the buffer cannot hold them all (a zero count, or the no-session case,
    reports exactly one entry); only entries that fit are copied, and in the
    zero/no-session case the single entry (when it fits) encodes LUN 0. -/
theorem report_luns_header_and_entries (luns : Option (List Nat)) (dlen : Nat)
    (buf : List Nat) (hb : buf.length = dlen) (h4 : 4 ≤ dlen)
    (hcnt : visibleLunCount luns < 536870912) :
    (readBe32 (spc_emulate_report_luns luns dlen buf).1 0 =
      8 * (if visibleLunCount luns = 0 then 1 else visibleLunCount luns)) ∧
    ((spc_emulate_report_luns luns dlen buf).2 =
      8 + 8 * (if visibleLunCount luns = 0 then 1 else visibleLunCount luns)) ∧
    (∀ l, luns = some l → ∀ i, i < l.length → 8 + 8 * i + 8 ≤ dlen →
      (((spc_emulate_report_luns luns dlen buf).1).drop (8 + 8 * i)).take 8 =
        (int_to_scsilun (l.getD i 0)).map (· % 256)) ∧
    (visibleLunCount luns = 0 → 16 ≤ dlen →
      (((spc_emulate_report_luns luns dlen buf).1).drop 8).take 8 =
        List.replicate 8 0) := by
  have hmin4 : min 4 dlen = 4 := by omega
  have hlun0 : int_to_scsilun 0 = List.replicate 8 0 := by decide
  cases luns with
  | none =>
    simp only [spc_emulate_report_luns, visibleLunCount, reduceIte]
    refine ⟨?_, ?_, ?_, ?_⟩
    · rw [hmin4, show (be32List (1 * 8)).take 4 = be32List (1 * 8) from rfl]
      rw [readBe32_writeBytes_be32List _ _ (by
        split_ifs
        · rw [length_writeBytes]
          omega
        · omega) (by omega)]
    · simp
    · intro l hl
      exact absurd hl (by simp)
    · intro _ h16
      have hmin8 : min 8 (dlen - 8) = 8 := by omega
      rw [if_pos (by omega), hmin8, hlun0,
        show (List.replicate 8 0).take 8 = List.replicate 8 0 from rfl]
      have ht : (List.replicate 8 (0 : Nat)).length = 8 := by simp
      have hsl := slice_eq (b := writeBytes
          (writeBytes buf 8 (List.replicate 8 0)) 0
          ((be32List (1 * 8)).take (min 4 dlen)))
        (t := List.replicate 8 0) (a := 8)
        (by
          rw [ht, length_writeBytes, length_writeBytes]
          omega)
        (by
          intro j hj
          rw [ht] at hj
          rw [getD_writeBytes_ge _ _ _ _ (by
            simp only [List.length_take, be32List, List.length_cons,
              List.length_nil]
            omega)]
          rw [getD_writeBytes_in _ _ 8 j (by simpa using hj) (by omega)]
          rw [getD_replicate_zero])
      rw [ht] at hsl
      exact hsl
  | some l =>
    rcases hres : reportLunsLoop dlen l buf 0 8 with ⟨buf1, cnt, off⟩
    have hc : cnt = l.length := by
      have h := reportLunsLoop_count dlen l buf 0 8
      rw [hres] at h
      simpa using h
    have hb1 : buf1.length = dlen := by
      have h := reportLunsLoop_length dlen l buf 0 8
      rw [hres] at h
      simpa [hb] using h
    by_cases hl : l.length = 0
    · have hnil : l = [] := List.eq_nil_of_length_eq_zero hl
      subst hnil
      rw [show reportLunsLoop dlen [] buf 0 8 = (buf, 0, 8) from rfl] at hres
      simp only [Prod.mk.injEq] at hres
      obtain ⟨hbuf1, hcnt0, hoff⟩ := hres
      subst hbuf1 hcnt0 hoff
      simp only [spc_emulate_report_luns, visibleLunCount, List.length_nil,
        reportLunsLoop, reduceIte]
      refine ⟨?_, ?_, ?_, ?_⟩
      · rw [hmin4, show (be32List (1 * 8)).take 4 = be32List (1 * 8) from rfl]
        rw [readBe32_writeBytes_be32List _ _ (by
          split_ifs
          · rw [length_writeBytes]
            omega
          · omega) (by omega)]
      · simp
      · intro l' hl' i hi _
        have hll : [] = l' := by injection hl'
        rw [← hll] at hi
        simp at hi
      · intro _ h16
        have hmin8 : min 8 (dlen - 8) = 8 := by omega
        rw [if_pos (by omega), hmin8, hlun0,
          show (List.replicate 8 0).take 8 = List.replicate 8 0 from rfl]
        have ht : (List.replicate 8 (0 : Nat)).length = 8 := by simp
        have hsl := slice_eq (b := writeBytes
            (writeBytes buf 8 (List.replicate 8 0)) 0
            ((be32List (1 * 8)).take (min 4 dlen)))
          (t := List.replicate 8 0) (a := 8)
          (by
            rw [ht, length_writeBytes, length_writeBytes]
            omega)
          (by
            intro j hj
            rw [ht] at hj
            rw [getD_writeBytes_ge _ _ _ _ (by
              simp only [List.length_take, be32List, List.length_cons,
                List.length_nil]
              omega)]
            rw [getD_writeBytes_in _ _ 8 j (by simpa using hj) (by omega)]
            rw [getD_replicate_zero])
        rw [ht] at hsl
        exact hsl
    · simp only [spc_emulate_report_luns, visibleLunCount, hres]
      rw [if_neg (by omega)]
      refine ⟨?_, ?_, ?_, ?_⟩
      · show readBe32
          (writeBytes buf1 0 ((be32List (cnt * 8)).take (min 4 dlen))) 0 =
          8 * (if l.length = 0 then 1 else l.length)
        rw [hmin4, show (be32List (cnt * 8)).take 4 = be32List (cnt * 8) from rfl]
        rw [readBe32_writeBytes_be32List _ _ (by omega) (by
          simp only [visibleLunCount] at hcnt
          omega)]
        rw [if_neg hl]
        omega
      · show 8 + cnt * 8 = 8 + 8 * (if l.length = 0 then 1 else l.length)
        rw [if_neg hl]
        omega
      · intro l' hl' i hi hfit
        have hll : l = l' := by injection hl'
        subst hll
        show (((writeBytes buf1 0
            ((be32List (cnt * 8)).take (min 4 dlen)))).drop (8 + 8 * i)).take 8 =
          (int_to_scsilun (l.getD i 0)).map (· % 256)
        have ht : ((int_to_scsilun (l.getD i 0)).map (· % 256)).length = 8 := by
          rw [List.length_map, length_int_to_scsilun]
        have hsl := slice_eq
          (b := writeBytes buf1 0 ((be32List (cnt * 8)).take (min 4 dlen)))
          (t := (int_to_scsilun (l.getD i 0)).map (· % 256)) (a := 8 + 8 * i)
          (by
            rw [ht, length_writeBytes, hb1]
            omega)
          (by
            intro j hj
            rw [ht] at hj
            rw [getD_writeBytes_ge _ _ _ _ (by
              simp only [List.length_take, be32List, List.length_cons,
                List.length_nil]
              omega)]
            have he := reportLunsLoop_entry dlen l buf 0 8 i j hi hj
              (by omega) hb
            rw [hres] at he
            rw [he]
            have hm := List.getD_map (int_to_scsilun (l.getD i 0)) 0 (· % 256)
              (n := j)
            simpa using hm.symm)
        rw [ht] at hsl
        exact hsl
      · intro h0
        exact absurd h0 hl

/-- Witness for C4: three visible LUNs with a 20-byte buffer (room for the
    header and only one full entry): count declared as 3 anyway, and the
    first entry encodes LUN 1. -/
theorem report_luns_header_and_entries_witness :
    readBe32 (spc_emulate_report_luns (some [1, 2, 5]) 20
        (List.replicate 20 7)).1 0 =
      8 * (if visibleLunCount (some [1, 2, 5]) = 0 then 1
        else visibleLunCount (some [1, 2, 5])) ∧
    (spc_emulate_report_luns (some [1, 2, 5]) 20 (List.replicate 20 7)).2 =
      8 + 8 * (if visibleLunCount (some [1, 2, 5]) = 0 then 1
        else visibleLunCount (some [1, 2, 5])) ∧
    (((spc_emulate_report_luns (some [1, 2, 5]) 20
        (List.replicate 20 7)).1).drop (8 + 8 * 0)).take 8 =
      (int_to_scsilun ([1, 2, 5].getD 0 0)).map (· % 256) :=
  have h := report_luns_header_and_entries (some [1, 2, 5]) 20
    (List.replicate 20 7) (by simp) (by omega) (by decide)
  ⟨h.1, h.2.1, h.2.2.1 [1, 2, 5] rfl 0 (by decide) (by decide)⟩

/-! ### C1: the MODE SENSE / MODE SELECT round trip -/

/-- A MODE SENSE (6 or 10) CDB for the given page/subpage with PC=0. -/
def msCdb (ten dbd : Bool) (page subpage : Nat) : List Nat :=
  if ten then
    [ MODE_SENSE_10, if dbd then 0x08 else 0x00, page, subpage, 0, 0, 0, 0xff, 0xff, 0]
  else
    [ MODE_SENSE, if dbd then 0x08 else 0x00, page, subpage, 0xff, 0]

/-- The corresponding MODE SELECT (6 or 10) CDB with PF=1. -/
def mselCdb (ten : Bool) : List Nat :=
  if ten then [ MODE_SELECT_10, 0x10, 0, 0, 0, 0, 0, 0, 0, 0]
  else [ MODE_SELECT, 0x10, 0, 0, 0, 0]

/-- The disk device of the C1 counterexample (capacity 0, 512-byte blocks,
    all defaults). -/
def devC1 : DevState := { deviceType := TYPE_DISK }

/-- C1 counterexample: on a disk, MODE SENSE(6) of page 0x01 with PC=0 and
    DBD=0 emits a block descriptor; feeding that complete output back as the
    MODE SELECT(6) parameter list (PF=1) fails — the page code is read from
    offset 4, which inside the block descriptor holds 0x00 here — instead of
    completing GOOD as the claim requires. -/
theorem modesense_roundtrip_blockdesc_counterexample :
    (match spc_emulate_modesense devC1 (msCdb false false 0x01 0x00) with
      | Except.ok (out, len) =>
        spc_emulate_modeselect devC1 (mselCdb false) (out.take len)
      | Except.error e => Except.error e) =
      Except.error Sense.unknownModePage := by decide

theorem getD_drop (l : List Nat) (n m : Nat) (h : n + m < l.length) :
    (l.drop n).getD m 0 = l.getD (n + m) 0 := by
  rw [List.getD_eq_getElem _ 0 (by simp; omega), List.getD_eq_getElem _ 0 h,
    List.getElem_drop]

/-- Extracting the page section of a mode-parameter buffer: `B` differs from
    `writeBytes H off P` only below `off` (the patched-in length fields). -/
theorem slice_of_writeback (H P B : List Nat) (off : Nat) (hH : H.length = 512)
    (hfit : off + P.length ≤ 512) (hBlen : B.length = 512)
    (hlow : ∀ j, off ≤ j → B.getD j 0 = (writeBytes H off P).getD j 0) :
    ((B.take (off + P.length)).drop off).take P.length = P.map (· % 256) := by
  rw [List.drop_take, Nat.add_sub_cancel_left, List.take_take, min_self]
  have ht : (P.map (· % 256)).length = P.length := List.length_map ..
  have hsl := slice_eq (b := B) (t := P.map (· % 256)) (a := off)
    (by rw [ht]; omega)
    (by
      intro j hj
      rw [ht] at hj
      rw [hlow (off + j) (by omega),
        getD_writeBytes_in _ _ off j hj (by omega)]
      have hm := List.getD_map P 0 (· % 256) (n := j)
      simpa using hm.symm)
  rw [ht] at hsl
  exact hsl

/-- spc_emulate_modeselect accepts any parameter list whose page section
    regenerates byte-for-byte: the core of the MODE SENSE round trip. -/
theorem modeselect_accepts_match (s : DevState) (ten : Bool)
    (pageFn : DevState → Nat → List Nat) (p : Nat) (param : List Nat)
    (hfind : modesenseFindPage p 0 modesense_handlers = some pageFn)
    (hpb : (pageFn s 0).getD 0 0 % 256 &&& 0x3f = p)
    (hpb2 : (pageFn s 0).getD 0 0 % 256 &&& 0x40 = 0)
    (hl2 : 2 ≤ (pageFn s 0).length)
    (hplen : param.length = (if ten then 8 else 4) + (pageFn s 0).length)
    (hslice : (param.drop (if ten then 8 else 4)).take (pageFn s 0).length =
      (pageFn s 0).map (· % 256)) :
    spc_emulate_modeselect s (mselCdb ten) param = Except.ok () := by
  have hx : param.getD (if ten then 8 else 4) 0 = (pageFn s 0).getD 0 0 % 256 := by
    have h0 := congrArg (fun l => l.getD 0 0) hslice
    simp only at h0
    rw [getD_take_lt _ _ _ (by omega) (by simp; omega),
      getD_drop _ _ _ (by omega)] at h0
    rw [Nat.add_zero] at h0
    rw [h0]
    have hm := List.getD_map (pageFn s 0) 0 (· % 256) (n := 0)
    simpa using hm
  cases ten <;>
    · simp only [Bool.false_eq_true, if_false, if_true] at hplen hslice hx
      simp [mselCdb, spc_emulate_modeselect, getByte, MODE_SELECT, MODE_SELECT_10]
      intro _hne
      rw [if_neg (by omega)]
      have hx2 := hx
      rw [List.getD_eq_getElem?_getD] at hx2
      rw [hx2]
      have hdd : (pageFn s 0).getD 0 0 % 256 % 256 = (pageFn s 0).getD 0 0 % 256 := by
        omega
      rw [hdd, hpb2, if_pos rfl, hpb]
      split
      · next emulate heq =>
          rw [hfind] at heq
          injection heq with heq
          subst heq
          rw [if_neg (by omega), if_pos hslice]
      · next heq =>
          rw [hfind] at heq
          exact absurd heq (by simp)

/-- The mode-parameter header spc_emulate_modesense builds before the page
    content: the zeroed SE_MODE_PAGE_BUF with the WP and DPOFUA bits in the
    device-specific-parameter byte (byte 2 of the 6-byte form, byte 3 of the
    10-byte form). -/
def msHdr (s : DevState) (ten : Bool) : List Nat :=
  let i := if ten then 3 else 2
  let buf := List.replicate SE_MODE_PAGE_BUF 0
  let buf := if s.lun_access_ro then spc_modesense_write_protect buf i s.deviceType
             else buf
  if s.fua then spc_modesense_dpofua buf i s.deviceType else buf

/-- Evaluating spc_emulate_modesense for an exact page/subpage hit with no
    block descriptor (DBD set, or a non-disk device type). -/
theorem modesense_exact_page_eval (s : DevState) (ten dbd : Bool) (p sp : Nat)
    (fn : DevState → Nat → List Nat)
    (hfind : modesenseFindPage (p % 256 &&& 0x3f) (sp % 256) modesense_handlers =
      some fn)
    (hp : ¬(p % 256 &&& 0x3f = 0x3f))
    (hpc : (p % 256) >>> 6 = 0)
    (hnobd : dbd = true ∨ s.deviceType ≠ TYPE_DISK) :
    spc_emulate_modesense s (msCdb ten dbd p sp) = Except.ok
      ((if ten then
          putBe16 (writeBytes (msHdr s true) 8 (fn s 0)) 0 (8 + (fn s 0).length - 2)
        else
          setByte (writeBytes (msHdr s false) 4 (fn s 0)) 0 (4 + (fn s 0).length - 1)),
       (if ten then 8 else 4) + (fn s 0).length) := by
  cases ten <;> cases dbd
  · rcases hnobd with h | h
    · exact absurd h (by simp)
    · simp [spc_emulate_modesense, msCdb, msHdr, getByte, MODE_SENSE,
        MODE_SENSE_10, hpc, hp, hfind, h]
  · simp [spc_emulate_modesense, msCdb, msHdr, getByte, MODE_SENSE,
      MODE_SENSE_10, hpc, hp, hfind]
  · rcases hnobd with h | h
    · exact absurd h (by simp)
    · simp [spc_emulate_modesense, msCdb, msHdr, getByte, MODE_SENSE,
        MODE_SENSE_10, hpc, hp, hfind, h]
  · simp [spc_emulate_modesense, msCdb, msHdr, getByte, MODE_SENSE,
      MODE_SENSE_10, hpc, hp, hfind]


theorem msHdr_length (s : DevState) (ten : Bool) : (msHdr s ten).length = 512 := by
  rw [msHdr]
  simp only [spc_modesense_dpofua, spc_modesense_write_protect,
    apply_ite List.length, length_orByte, List.length_replicate, ite_self]

/-- The round trip for an arbitrary registered page, abstracted over the
    per-page facts (page-code byte, length bounds). -/
theorem modesense_roundtrip_core (s : DevState) (ten dbd : Bool) (p : Nat)
    (fn : DevState → Nat → List Nat)
    (hfind : modesenseFindPage (p % 256 &&& 0x3f) 0 modesense_handlers = some fn)
    (hp : ¬(p % 256 &&& 0x3f = 0x3f)) (hpc : (p % 256) >>> 6 = 0)
    (hpb : (fn s 0).getD 0 0 % 256 &&& 0x3f = p % 256 &&& 0x3f)
    (hpb2 : (fn s 0).getD 0 0 % 256 &&& 0x40 = 0)
    (hl2 : 2 ≤ (fn s 0).length) (hfit : (fn s 0).length ≤ 504)
    (hnobd : dbd = true ∨ s.deviceType ≠ TYPE_DISK) :
    ∃ out len, spc_emulate_modesense s (msCdb ten dbd p 0) = Except.ok (out, len) ∧
      spc_emulate_modeselect s (mselCdb ten) (out.take len) = Except.ok () := by
  have hsense := modesense_exact_page_eval s ten dbd p 0 fn hfind hp hpc hnobd
  refine ⟨_, _, hsense, ?_⟩
  cases ten
  · simp only [Bool.false_eq_true, if_false]
    have h1 : (setByte (writeBytes (msHdr s false) 4 (fn s 0)) 0
        (4 + (fn s 0).length - 1)).length = 512 := by
      rw [length_setByte, length_writeBytes, msHdr_length]
    refine modeselect_accepts_match s false fn (p % 256 &&& 0x3f) _ hfind hpb hpb2
      hl2 ?_ ?_
    · simp only [Bool.false_eq_true, if_false]
      rw [List.length_take, h1]
      omega
    · simp only [Bool.false_eq_true, if_false]
      exact slice_of_writeback (msHdr s false) (fn s 0) _ 4 (msHdr_length s false)
        (by omega) h1
        (fun j hj => getD_setByte_ne _ 0 j _ (by omega))
  · simp only [if_true]
    have h1 : (putBe16 (writeBytes (msHdr s true) 8 (fn s 0)) 0
        (8 + (fn s 0).length - 2)).length = 512 := by
      rw [length_putBe16, length_writeBytes, msHdr_length]
    refine modeselect_accepts_match s true fn (p % 256 &&& 0x3f) _ hfind hpb hpb2
      hl2 ?_ ?_
    · simp only [reduceIte]
      rw [List.length_take, h1]
      omega
    · simp only [reduceIte]
      exact slice_of_writeback (msHdr s true) (fn s 0) _ 8 (msHdr_length s true)
        (by omega) h1
        (fun j hj => getD_putBe16_ne _ 0 j _ (by omega))

/-- C1 (amended): for every page registered in modesense_handlers (0x01, 0x08,
    0x0a, 0x1c, all with subpage 0), every device state and both CDB forms,
    MODE SENSE with PC=0 followed by MODE SELECT (PF=1) of the complete output
    completes GOOD — provided the MODE SENSE output carries no block
    descriptor, i.e. DBD=1 in the CDB or the device type is not TYPE_DISK.
    (With a block descriptor present the round trip fails: see the
    counterexample.) -/
theorem modesense_modeselect_roundtrip (s : DevState) (ten dbd : Bool) (p : Nat)
    (hmem : p ∈ [0x01, 0x08, 0x0a, 0x1c])
    (hnobd : dbd = true ∨ s.deviceType ≠ TYPE_DISK) :
    ∃ out len, spc_emulate_modesense s (msCdb ten dbd p 0) = Except.ok (out, len) ∧
      spc_emulate_modeselect s (mselCdb ten) (out.take len) = Except.ok () := by
  have hrw : (spc_modesense_rwrecovery s 0).length = 12 := rfl
  have hrw0 : (spc_modesense_rwrecovery s 0).getD 0 0 = 0x01 := rfl
  have hie : (spc_modesense_informational_exceptions s 0).length = 12 := rfl
  have hie0 : (spc_modesense_informational_exceptions s 0).getD 0 0 = 0x1c := rfl
  have hcontrol : (spc_modesense_control s 0).length = 12 := rfl
  have hcaching : (spc_modesense_caching s 0).length = 20 := rfl
  have hcontrol0 : (spc_modesense_control s 0).getD 0 0 = 0x0a := rfl
  have hcaching0 : (spc_modesense_caching s 0).getD 0 0 = 0x08 := rfl
  simp only [List.mem_cons, List.not_mem_nil, or_false] at hmem
  rcases hmem with h | h | h | h
  · subst h
    exact modesense_roundtrip_core s ten dbd 0x01 spc_modesense_rwrecovery rfl
      (by decide) (by decide) (by rw [hrw0]) (by rw [hrw0]; decide)
      (by rw [hrw]; decide) (by rw [hrw]; decide) hnobd
  · subst h
    exact modesense_roundtrip_core s ten dbd 0x08 spc_modesense_caching rfl
      (by decide) (by decide) (by rw [hcaching0]) (by rw [hcaching0]; decide)
      (by rw [hcaching]; decide) (by rw [hcaching]; decide) hnobd
  · subst h
    exact modesense_roundtrip_core s ten dbd 0x0a spc_modesense_control rfl
      (by decide) (by decide) (by rw [hcontrol0]) (by rw [hcontrol0]; decide)
      (by rw [hcontrol]; decide) (by rw [hcontrol]; decide) hnobd
  · subst h
    exact modesense_roundtrip_core s ten dbd 0x1c
      spc_modesense_informational_exceptions rfl
      (by decide) (by decide) (by rw [hie0]) (by rw [hie0]; decide)
      (by rw [hie]; decide) (by rw [hie]; decide) hnobd

/-- Witness for the amended C1 round trip: caching page 0x08, MODE SENSE(10)
    with DBD=1 on the default disk device. -/
theorem modesense_modeselect_roundtrip_witness :
    ∃ out len,
      spc_emulate_modesense devC1 (msCdb true true 0x08 0) = Except.ok (out, len) ∧
      spc_emulate_modeselect devC1 (mselCdb true) (out.take len) = Except.ok () :=
  modesense_modeselect_roundtrip devC1 true true 0x08 (by decide) (Or.inl rfl)

/-! ### C6: disabled descriptors under REPORT SUPPORTED OPERATION CODES -/

/-- An RSOC CDB: byte 2 carries RCTD and the reporting options, byte 3 the
    requested opcode, bytes 4-5 the big-endian requested service action. -/
def rsocCdb (r : Bool) (opts reqOp reqSa : Nat) : List Nat :=
  [ MAINTENANCE_IN, 0x0c, (if r then 0x80 else 0) + opts, reqOp,
    reqSa / 256, reqSa % 256, 0, 0, 0, 0, 0, 0]

/-- The device of the C6 analysis: emulate_rsoc on, everything else default
    (in particular emulate_caw off, disabling COMPARE AND WRITE). -/
def devC6 : DevState := { emulate_rsoc := true }

theorem rsocAllCommandsLoop_filter (s : DevState) (rctd : Nat) :
    ∀ l : List Descr,
      rsocAllCommandsLoop s rctd (l.filter (fun x => descrEnabled x s)) =
        rsocAllCommandsLoop s rctd l
  | [] => rfl
  | d :: rest => by
    by_cases h : descrEnabled d s = true
    · simp only [List.filter_cons, h, reduceIte]
      simp only [rsocAllCommandsLoop]
      rw [if_pos h, if_pos h, rsocAllCommandsLoop_filter s rctd rest]
    · have h2 : descrEnabled d s = false := by simpa using h
      simp only [List.filter_cons, h2, reduceIte]
      simp only [rsocAllCommandsLoop]
      rw [if_neg h]
      exact rsocAllCommandsLoop_filter s rctd rest

theorem rsocGetDescrLoop_opts1_none (s : DevState) (reqOp reqSa : Nat) :
    ∀ l : List Descr,
      (∀ x ∈ l, x.opcode = reqOp →
        x.serv_action_valid = false ∧ descrEnabled x s = false) →
      rsocGetDescrLoop s 1 reqOp reqSa l = Except.ok none
  | [], _ => rfl
  | d :: rest, h => by
    have hrest := rsocGetDescrLoop_opts1_none s reqOp reqSa rest
      (fun x hx => h x (List.mem_cons_of_mem d hx))
    by_cases hop : d.opcode = reqOp
    · have hd := h d (List.mem_cons_self d rest) hop
      simp only [rsocGetDescrLoop]
      rw [if_neg (not_not_intro hop), if_pos trivial, if_neg (by simp [hd.1]),
        if_neg (by simp [hd.2])]
      exact hrest
    · simp only [rsocGetDescrLoop]
      rw [if_pos hop]
      exact hrest

theorem rsocGetDescrLoop_opts1_err (s : DevState) (reqOp reqSa : Nat) :
    ∀ l : List Descr,
      (∀ x ∈ l, x.opcode = reqOp → x.serv_action_valid = true) →
      (∃ x ∈ l, x.opcode = reqOp) →
      rsocGetDescrLoop s 1 reqOp reqSa l = Except.error Sense.invalidCdbField
  | [], _, hex => absurd hex (by simp)
  | d :: rest, hall, hex => by
    by_cases hop : d.opcode = reqOp
    · have hd := hall d (List.mem_cons_self d rest) hop
      simp only [rsocGetDescrLoop]
      rw [if_neg (not_not_intro hop), if_pos trivial, if_pos hd]
    · have hex2 : ∃ x ∈ rest, x.opcode = reqOp := by
        rcases hex with ⟨x, hx, hxop⟩
        rcases List.mem_cons.mp hx with h | h
        · exact absurd (h ▸ hxop) hop
        · exact ⟨x, h, hxop⟩
      have hrest := rsocGetDescrLoop_opts1_err s reqOp reqSa rest
        (fun x hx => hall x (List.mem_cons_of_mem d hx)) hex2
      simp only [rsocGetDescrLoop]
      rw [if_pos hop]
      exact hrest

theorem rsocGetDescrLoop_opts2_none (s : DevState) (reqOp reqSa : Nat) :
    ∀ l : List Descr,
      (∀ x ∈ l, x.opcode = reqOp → x.serv_action_valid = true ∧
        (x.service_action = reqSa → descrEnabled x s = false)) →
      rsocGetDescrLoop s 2 reqOp reqSa l = Except.ok none
  | [], _ => rfl
  | d :: rest, h => by
    have hrest := rsocGetDescrLoop_opts2_none s reqOp reqSa rest
      (fun x hx => h x (List.mem_cons_of_mem d hx))
    by_cases hop : d.opcode = reqOp
    · have hd := h d (List.mem_cons_self d rest) hop
      simp only [rsocGetDescrLoop]
      rw [if_neg (not_not_intro hop), if_neg (by decide), if_pos trivial]
      by_cases hsa : d.service_action = reqSa
      · rw [if_pos ⟨hd.1, hsa⟩, if_neg (by simp [hd.2 hsa])]
        exact hrest
      · rw [if_neg (fun hc => hsa hc.2), if_neg (by simp [hd.1])]
        exact hrest
    · simp only [rsocGetDescrLoop]
      rw [if_pos hop]
      exact hrest

theorem rsocGetDescrLoop_opts2_err (s : DevState) (reqOp reqSa : Nat) :
    ∀ l : List Descr,
      (∀ x ∈ l, x.opcode = reqOp → x.serv_action_valid = false) →
      (∃ x ∈ l, x.opcode = reqOp) →
      rsocGetDescrLoop s 2 reqOp reqSa l = Except.error Sense.invalidCdbField
  | [], _, hex => absurd hex (by simp)
  | d :: rest, hall, hex => by
    by_cases hop : d.opcode = reqOp
    · have hd := hall d (List.mem_cons_self d rest) hop
      simp only [rsocGetDescrLoop]
      rw [if_neg (not_not_intro hop), if_neg (by decide), if_pos trivial,
        if_neg (fun hc => by simp [hd] at hc), if_pos (by simp [hd])]
    · have hex2 : ∃ x ∈ rest, x.opcode = reqOp := by
        rcases hex with ⟨x, hx, hxop⟩
        rcases List.mem_cons.mp hx with h | h
        · exact absurd (h ▸ hxop) hop
        · exact ⟨x, h, hxop⟩
      have hrest := rsocGetDescrLoop_opts2_err s reqOp reqSa rest
        (fun x hx => hall x (List.mem_cons_of_mem d hx)) hex2
      simp only [rsocGetDescrLoop]
      rw [if_pos hop]
      exact hrest

theorem rsocGetDescrLoop_opts3_none (s : DevState) (reqOp reqSa : Nat) :
    ∀ l : List Descr,
      (∀ x ∈ l, x.opcode = reqOp → x.service_action = reqSa →
        descrEnabled x s = false) →
      rsocGetDescrLoop s 3 reqOp reqSa l = Except.ok none
  | [], _ => rfl
  | d :: rest, h => by
    have hrest := rsocGetDescrLoop_opts3_none s reqOp reqSa rest
      (fun x hx => h x (List.mem_cons_of_mem d hx))
    by_cases hop : d.opcode = reqOp
    · simp only [rsocGetDescrLoop]
      rw [if_neg (not_not_intro hop), if_neg (by decide), if_neg (by decide),
        if_pos trivial]
      by_cases hsa : d.service_action = reqSa
      · rw [if_pos hsa, if_neg (by simp [h d (List.mem_cons_self d rest) hop hsa])]
        exact hrest
      · rw [if_neg hsa]
        exact hrest
    · simp only [rsocGetDescrLoop]
      rw [if_pos hop]
      exact hrest

theorem rsoc_table_sa_unique :
    ∀ x ∈ tcm_supported_opcodes, ∀ y ∈ tcm_supported_opcodes,
      x.opcode = y.opcode → x.service_action = y.service_action → x = y := by
  decide

theorem rsoc_table_sav_eq :
    ∀ x ∈ tcm_supported_opcodes, ∀ y ∈ tcm_supported_opcodes,
      x.opcode = y.opcode → x.serv_action_valid = y.serv_action_valid := by
  decide

theorem rsoc_table_no_sa_unique :
    ∀ x ∈ tcm_supported_opcodes, ∀ y ∈ tcm_supported_opcodes,
      x.opcode = y.opcode → x.serv_action_valid = false → x = y := by
  decide

theorem rsoc_table_bytes :
    ∀ x ∈ tcm_supported_opcodes, x.opcode % 256 = x.opcode ∧
      ((x.service_action / 256) % 256) <<< 8 ||| x.service_action % 256 =
        x.service_action := by
  decide

theorem rsoc_emulate_one_none (s : DevState) (cdb : List Nat)
    (hrsoc : s.emulate_rsoc = true) (hopts : ¬(getByte cdb 2 &&& 0x3 = 0))
    (hget : spc_rsoc_get_descr s cdb = Except.ok none) :
    spc_emulate_report_supp_op_codes s cdb =
      Except.ok ([0, ((((getByte cdb 2 >>> 7) &&& 0x1) <<< 7) ||| 1) % 256], 2) := by
  simp only [spc_emulate_report_supp_op_codes, hrsoc]
  rw [if_neg (by simp), if_neg hopts, hget]
  simp [spc_rsoc_encode_one_command_descriptor, SCSI_SUPPORT_NOT_SUPPORTED]

theorem rsoc_emulate_one_err (s : DevState) (cdb : List Nat) (e : Sense)
    (hrsoc : s.emulate_rsoc = true) (hopts : ¬(getByte cdb 2 &&& 0x3 = 0))
    (hget : spc_rsoc_get_descr s cdb = Except.error e) :
    spc_emulate_report_supp_op_codes s cdb = Except.error e := by
  simp only [spc_emulate_report_supp_op_codes, hrsoc]
  rw [if_neg (by simp), if_neg hopts, hget]

/-- C6 counterexample: COMPARE AND WRITE (opcode 0x89, no service action) is
    gated by tcm_is_caw_enabled and disabled here (emulate_caw off), yet
    REPORT SUPPORTED OPERATION CODES with reporting options 2 for that opcode
    fails with invalid-CDB-field instead of returning the claimed
    support-not-supported one-command response. -/
theorem rsoc_disabled_option2_rejected_counterexample :
    descrEnabled tcm_opcode_compare_write devC6 = false ∧
    tcm_opcode_compare_write ∈ tcm_supported_opcodes ∧
    spc_emulate_report_supp_op_codes devC6
      (rsocCdb false 2 tcm_opcode_compare_write.opcode
        tcm_opcode_compare_write.service_action) =
      Except.error Sense.invalidCdbField := by
  decide

set_option maxHeartbeats 1000000 in
/-- C6 (amended): a descriptor disabled by its enablement predicate is
    omitted entirely from the reporting-options-0 enumeration (the
    all-commands payload equals that of the enabled-filtered table, which the
    descriptor is not in); under option 3 the one-command response is
    support-not-supported; under option 1 it is support-not-supported when
    the opcode implements no service actions but invalid-CDB-field when it
    does; under option 2 it is support-not-supported when the descriptor has
    a service action but invalid-CDB-field when it does not. -/
theorem rsoc_disabled_descriptor_reporting (s : DevState) (d : Descr)
    (r : Bool) (hd : d ∈ tcm_supported_opcodes)
    (hdis : descrEnabled d s = false) (hrsoc : s.emulate_rsoc = true) :
    (rsocAllCommandsLoop s (if r then 1 else 0) tcm_supported_opcodes =
        rsocAllCommandsLoop s (if r then 1 else 0)
          (tcm_supported_opcodes.filter (fun x => descrEnabled x s)) ∧
      d ∉ tcm_supported_opcodes.filter (fun x => descrEnabled x s)) ∧
    (spc_emulate_report_supp_op_codes s
        (rsocCdb r 3 d.opcode d.service_action) =
      Except.ok ([0, if r then 0x81 else 0x01], 2)) ∧
    (d.serv_action_valid = false →
      spc_emulate_report_supp_op_codes s
          (rsocCdb r 1 d.opcode d.service_action) =
        Except.ok ([0, if r then 0x81 else 0x01], 2)) ∧
    (d.serv_action_valid = true →
      spc_emulate_report_supp_op_codes s
          (rsocCdb r 1 d.opcode d.service_action) =
        Except.error Sense.invalidCdbField) ∧
    (d.serv_action_valid = true →
      spc_emulate_report_supp_op_codes s
          (rsocCdb r 2 d.opcode d.service_action) =
        Except.ok ([0, if r then 0x81 else 0x01], 2)) ∧
    (d.serv_action_valid = false →
      spc_emulate_report_supp_op_codes s
          (rsocCdb r 2 d.opcode d.service_action) =
        Except.error Sense.invalidCdbField) := by
  have hb := rsoc_table_bytes d hd
  have hop : ∀ o : Nat, getByte (rsocCdb r o d.opcode d.service_action) 3 =
      d.opcode := fun _ => hb.1
  have hsa : ∀ o : Nat, (getByte (rsocCdb r o d.opcode d.service_action) 4) <<< 8 |||
      getByte (rsocCdb r o d.opcode d.service_action) 5 = d.service_action := by
    intro o
    show ((d.service_action / 256) % 256) <<< 8 |||
      d.service_action % 256 % 256 = d.service_action
    have h5 : d.service_action % 256 % 256 = d.service_action % 256 := by omega
    rw [h5]
    exact hb.2
  have hkey : ∀ o : Nat, o = 1 ∨ o = 2 ∨ o = 3 →
      spc_rsoc_get_descr s (rsocCdb r o d.opcode d.service_action) =
        rsocGetDescrLoop s o d.opcode d.service_action tcm_supported_opcodes := by
    intro o ho
    have h2 : getByte (rsocCdb r o d.opcode d.service_action) 2 &&& 0x3 = o := by
      rcases ho with h | h | h <;> subst h <;> cases r <;> simp [rsocCdb, getByte] <;> decide
    simp only [spc_rsoc_get_descr, h2, hop o, hsa o]
    rw [if_neg (by omega)]
  have hno : ∀ o : Nat, o = 1 ∨ o = 2 ∨ o = 3 →
      ¬(getByte (rsocCdb r o d.opcode d.service_action) 2 &&& 0x3 = 0) := by
    intro o ho
    have h2 : getByte (rsocCdb r o d.opcode d.service_action) 2 &&& 0x3 = o := by
      rcases ho with h | h | h <;> subst h <;> cases r <;> simp [rsocCdb, getByte] <;> decide
    rw [h2]
    omega
  have hresp : ∀ o : Nat, o = 1 ∨ o = 2 ∨ o = 3 →
      ((((getByte (rsocCdb r o d.opcode d.service_action) 2 >>> 7) &&& 0x1)
        <<< 7) ||| 1) % 256 = (if r then 0x81 else 0x01) := by
    intro o ho
    rcases ho with h | h | h <;> subst h <;> cases r <;> simp [rsocCdb, getByte] <;> decide
  refine ⟨⟨(rsocAllCommandsLoop_filter s _ tcm_supported_opcodes).symm, ?_⟩,
    ?_, ?_, ?_, ?_, ?_⟩
  · intro hmem
    have h := (List.mem_filter.mp hmem).2
    rw [hdis] at h
    exact Bool.false_ne_true h
  · have hget : spc_rsoc_get_descr s (rsocCdb r 3 d.opcode d.service_action) =
        Except.ok none := by
      rw [hkey 3 (by omega)]
      exact rsocGetDescrLoop_opts3_none s d.opcode d.service_action
        tcm_supported_opcodes
        (fun x hx hxop hxsa => by
          rw [rsoc_table_sa_unique x hx d hd hxop hxsa]
          exact hdis)
    rw [rsoc_emulate_one_none s _ hrsoc (hno 3 (by omega)) hget, hresp 3 (by omega)]
  · intro hsav
    have hget : spc_rsoc_get_descr s (rsocCdb r 1 d.opcode d.service_action) =
        Except.ok none := by
      rw [hkey 1 (by omega)]
      exact rsocGetDescrLoop_opts1_none s d.opcode d.service_action
        tcm_supported_opcodes
        (fun x hx hxop => by
          have hxsav : x.serv_action_valid = false := by
            rw [rsoc_table_sav_eq x hx d hd hxop]
            exact hsav
          refine ⟨hxsav, ?_⟩
          rw [rsoc_table_no_sa_unique x hx d hd hxop hxsav]
          exact hdis)
    rw [rsoc_emulate_one_none s _ hrsoc (hno 1 (by omega)) hget, hresp 1 (by omega)]
  · intro hsav
    have hget : spc_rsoc_get_descr s (rsocCdb r 1 d.opcode d.service_action) =
        Except.error Sense.invalidCdbField := by
      rw [hkey 1 (by omega)]
      exact rsocGetDescrLoop_opts1_err s d.opcode d.service_action
        tcm_supported_opcodes
        (fun x hx hxop => by
          rw [rsoc_table_sav_eq x hx d hd hxop]
          exact hsav)
        ⟨d, hd, rfl⟩
    exact rsoc_emulate_one_err s _ Sense.invalidCdbField hrsoc
      (hno 1 (by omega)) hget
  · intro hsav
    have hget : spc_rsoc_get_descr s (rsocCdb r 2 d.opcode d.service_action) =
        Except.ok none := by
      rw [hkey 2 (by omega)]
      exact rsocGetDescrLoop_opts2_none s d.opcode d.service_action
        tcm_supported_opcodes
        (fun x hx hxop => by
          refine ⟨by rw [rsoc_table_sav_eq x hx d hd hxop]; exact hsav, ?_⟩
          intro hxsa
          rw [rsoc_table_sa_unique x hx d hd hxop hxsa]
          exact hdis)
    rw [rsoc_emulate_one_none s _ hrsoc (hno 2 (by omega)) hget, hresp 2 (by omega)]
  · intro hsav
    have hget : spc_rsoc_get_descr s (rsocCdb r 2 d.opcode d.service_action) =
        Except.error Sense.invalidCdbField := by
      rw [hkey 2 (by omega)]
      exact rsocGetDescrLoop_opts2_err s d.opcode d.service_action
        tcm_supported_opcodes
        (fun x hx hxop => by
          rw [rsoc_table_sav_eq x hx d hd hxop]
          exact hsav)
        ⟨d, hd, rfl⟩
    exact rsoc_emulate_one_err s _ Sense.invalidCdbField hrsoc
      (hno 2 (by omega)) hget

/-- Witness for the amended C6 theorem: the option-3 one-command response for
    COMPARE AND WRITE on a device with emulate_rsoc on and emulate_caw off is
    support-not-supported. -/
theorem rsoc_disabled_descriptor_reporting_witness :
    spc_emulate_report_supp_op_codes devC6
      (rsocCdb false 3 tcm_opcode_compare_write.opcode
        tcm_opcode_compare_write.service_action) =
      Except.ok ([0, 0x01], 2) :=
  (rsoc_disabled_descriptor_reporting devC6 tcm_opcode_compare_write false
    (by decide) (by decide) rfl).2.1

end TargetCoreSpc
